import Mathlib

/-!
# GeoMindIA backend — shallow embedding and verification

This file embeds the pure/fallback control flow of the GeoMindIA backend
(`backend/main.py`, `backend/services/llm_service.py`,
`backend/services/geospatial_service.py`, `backend/services/maps_service.py`,
`backend/services/routing_service.py`,
`backend/services/advanced_features_service.py`) into Lean and proves the
spec's testable properties about it.

Conventions of the embedding:
* Python strings are `List Char`; `str.lower()` is `lowerStr`; the Python
  substring test `needle in hay` is `strContains needle hay`.
* Python floats in this code base are used only for small decimal constants
  and arithmetic on them; they are modelled exactly as rationals (`ℚ`).
* External effects (asyncpg pool creation, SQL execution, the Google places
  client) are oracles passed as parameters; an oracle returning
  `Except.error`/`none` models the external call raising an exception.
* A Python function that can raise an uncaught exception is embedded with
  result type `Except e α`; a total Lean function models a Python function
  that cannot raise.
-/

namespace GeoMindIA

/-- Python strings, as lists of characters. -/
abbrev Str := List Char

/-- `str.lower()` (ASCII-wise, via `Char.toLower`, which matches the
characters occurring in this code base). -/
def lowerStr (s : Str) : Str := s.map Char.toLower

/-- `needle.isPrefixOf hay` on character lists (used to implement the Python
substring test). -/
def startsWith : Str → Str → Bool
  | [], _ => true
  | _ :: _, [] => false
  | a :: as, b :: bs => a == b && startsWith as bs

/-- The Python substring test `needle in hay`. -/
def strContains (needle : Str) : Str → Bool
  | [] => startsWith needle []
  | c :: t => startsWith needle (c :: t) || strContains needle t

/-! ## `llm_service.py` — the fallback interpreter (`_fallback_interpretation`)

The `Interpretation` JSON object produced by `LLMService._fallback_interpretation`
is embedded as a structure with exactly the keys the Python dict literal has. -/

/-- One entry of the `"filters"` list of an interpretation
(`{"type": ..., "attribute": ..., "operator": ..., "value": ..., "unit": ...}`). -/
structure QFilter where
  ftype : Str
  attrib : Str
  operator : Str
  value : Str
  unit : Str
deriving DecidableEq, Repr

/-- The `"parameters"` dict of a spatial operation. -/
structure OpParams where
  radius : Str
  unit : Str
deriving DecidableEq, Repr

/-- One entry of the `"spatial_operations"` list
(`{"operation": ..., "parameters": {...}}`). -/
structure SpatialOp where
  operation : Str
  parameters : OpParams
deriving DecidableEq, Repr

/-- The `"output"` dict of the fallback interpretation. -/
structure QOutput where
  fields : List Str
  limit : ℕ
deriving DecidableEq, Repr

/-- The `"location"` dict of the fallback interpretation (only the `"city"`
key is ever set there; `None` is `none`). -/
structure QLocation where
  city : Option Str
deriving DecidableEq, Repr

/-- The interpretation dict built by `_fallback_interpretation`. -/
structure Interpretation where
  query_type : Str
  analysis_type : Str
  location : QLocation
  filters : List QFilter
  spatial_operations : List SpatialOp
  output : QOutput
  enrich_with_places : Bool
  description : Str
deriving DecidableEq, Repr

/-- `LLMService._fallback_interpretation` (llm_service.py lines 131-168):
keyword-substring interpretation used when no `GEMINI_API_KEY` is set or the
LLM call fails. -/
def fallback_interpretation (query : Str) : Interpretation :=
  let query_lower := lowerStr query
  let base : Interpretation :=
    { query_type := "polygon".toList
      analysis_type := "proximity".toList
      location := ⟨if strContains "porto alegre".toList query_lower
                   then some "Porto Alegre".toList else none⟩
      filters := []
      spatial_operations := []
      output := ⟨["name".toList, "score".toList, "geometry".toList], 50⟩
      enrich_with_places :=
        strContains "coffee".toList query_lower ||
        strContains "restaurant".toList query_lower
      description := "Analysis query: ".toList ++ query }
  let withOps :=
    if strContains "500".toList query &&
       (strContains "meter".toList query_lower ||
        strContains "metro".toList query_lower) then
      { base with spatial_operations :=
          base.spatial_operations ++
            [⟨"buffer".toList, ⟨"500".toList, "meters".toList⟩⟩] }
    else base
  if strContains "coffee".toList query_lower ||
     strContains "cafeteria".toList query_lower then
    { withOps with filters :=
        withOps.filters ++
          [⟨"business".toList, "poi_type".toList, "equals".toList,
            "cafe".toList, "category".toList⟩] }
  else withOps

/-! ## `geospatial_service.py` — pool, executor and mock data

`GeospatialService` holds one piece of mutable state, `self.pool`
(an asyncpg pool or `None`).  The pool handle itself is opaque to the
service; it is modelled as a natural-number token.  `asyncpg.create_pool`
is an oracle `create : Option Pool` (`none` models the call raising). -/

/-- An asyncpg pool handle (abstract token). -/
abbrev Pool := ℕ

/-- The mutable state of `GeospatialService`: `self.pool`. -/
structure GeoState where
  pool : Option Pool
deriving DecidableEq, Repr

/-- `GeospatialService.get_pool` (geospatial_service.py lines 21-29): lazily
creates the pool; a creation failure is caught, printed, and surfaced as
`None` with `self.pool` left at `None`. -/
def get_pool (create : Option Pool) (s : GeoState) : Option Pool × GeoState :=
  match s.pool with
  | some p => (some p, s)
  | none =>
    match create with
    | some p => (some p, ⟨some p⟩)
    | none => (none, s)

/-- `GeospatialService.check_connection` (lines 31-41): `ping` models
`pool.acquire()` + `conn.fetchval("SELECT 1")`; an exception there is caught
and reported as `"unhealthy: ..."`. -/
def check_connection (create : Option Pool) (ping : Pool → Except Str Unit)
    (s : GeoState) : Str × GeoState :=
  let r := get_pool create s
  match r.1 with
  | some p =>
    match ping p with
    | .ok _ => ("healthy".toList, r.2)
    | .error e => ("unhealthy: ".toList ++ e, r.2)
  | none => ("unhealthy".toList, r.2)

/-- The `"center"` dict of a mock row. -/
structure GeoCenter where
  lat : ℚ
  lng : ℚ
deriving DecidableEq, Repr

/-- The `"geometry"` dict of a mock row (GeoJSON-shaped; coordinates are
`[lng, lat]` pairs). -/
structure GeoPolygon where
  gtype : Str
  coordinates : List (List (ℚ × ℚ))
deriving DecidableEq, Repr

/-- One row of the mock result set built by `_get_mock_data`
(geospatial_service.py lines 107-125), with exactly the keys of the dict
literal.  The float constants of the generator are small decimals and are
modelled exactly in `ℚ`; `round(x, 1)` is the identity on every value the
generator feeds it. -/
structure MockRow where
  id : ℕ
  name : Str
  score : ℚ
  population : ℕ
  density : ℚ
  young_population_pct : ℚ
  competitor_count : ℕ
  business_centers_nearby : ℕ
  avg_walk_time : ℚ
  geometry : GeoPolygon
  center : GeoCenter
deriving DecidableEq, Repr

/-- The row the `for i in range(10)` loop body of `_get_mock_data` appends
for index `i` (lines 91-127). -/
def mockRow (i : ℕ) : MockRow :=
  let lat_offset : ℚ := ((i % 5 : ℕ) - (2 : ℤ)) * (1/100)
  let lng_offset : ℚ := ((i / 5 : ℕ) - (1 : ℤ)) * (1/100)
  let lat : ℚ := -30.0346 + lat_offset
  let lng : ℚ := -51.2177 + lng_offset
  let polygon_coords : List (ℚ × ℚ) :=
    [(lng - 5/1000, lat - 5/1000),
     (lng + 5/1000, lat - 5/1000),
     (lng + 5/1000, lat + 5/1000),
     (lng - 5/1000, lat + 5/1000),
     (lng - 5/1000, lat - 5/1000)]
  { id := i + 1
    name := "Area ".toList ++ (Nat.repr (i + 1)).toList
    score := 85 - (7/2) * i
    population := 5000 + i * 500
    density := 120 - 5 * i
    young_population_pct := 35 + 2 * i
    competitor_count := i % 3
    business_centers_nearby := 2 + (i % 4)
    avg_walk_time := 5 + (4/5) * i
    geometry := ⟨"Polygon".toList, [polygon_coords]⟩
    center := ⟨lat, lng⟩ }

/-- Insertion step of a stable descending sort on the `"score"` key. -/
def insertScoreDesc (r : MockRow) : List MockRow → List MockRow
  | [] => [r]
  | x :: xs => if x.score < r.score then r :: x :: xs else x :: insertScoreDesc r xs

/-- `mock_results.sort(key=lambda x: x["score"], reverse=True)` — Python's
sort is stable; it is modelled by a stable insertion sort. -/
def sortScoreDesc (rows : List MockRow) : List MockRow :=
  rows.foldl (fun acc r => insertScoreDesc r acc) []

/-- `GeospatialService._get_mock_data` (lines 78-132).  The `interpretation`
argument is accepted and ignored, exactly as in the source. -/
def get_mock_data (_interpretation : Interpretation) : List MockRow :=
  sortScoreDesc ((List.range 10).map mockRow)

/-- Result of `execute_query`: either the rows fetched from the database
(already converted to dicts, with the `"geometry"` string parsed — bundled
into the abstract row type `DbRow` delivered by the `runQ` oracle), or the
mock rows.  In Python both are plain lists of dicts; the constructor only
records which of the two `return` statements produced the list. -/
inductive QueryOutcome (DbRow : Type) where
  | fromDb (rows : List DbRow)
  | mock (rows : List MockRow)
deriving DecidableEq, Repr

/-- `GeospatialService.execute_query` (lines 43-76).  `runQ` models
`pool.acquire()` + `conn.fetch(sql_query)` + the row-conversion loop;
`Except.error` models any exception in that block, which is caught and
answered with the mock data. -/
def execute_query {DbRow : Type} (create : Option Pool)
    (runQ : Pool → Str → Except Str (List DbRow))
    (sql_query : Str) (interpretation : Interpretation) (s : GeoState) :
    QueryOutcome DbRow × GeoState :=
  let r := get_pool create s
  match r.1 with
  | none => (.mock (get_mock_data interpretation), r.2)
  | some p =>
    match runQ p sql_query with
    | .ok rows => (.fromDb rows, r.2)
    | .error _ => (.mock (get_mock_data interpretation), r.2)

/-! ## `maps_service.py` — enrichment with nearby places

Interpretations reaching `MapsService.enrich_with_places` may come from the
LLM's JSON, so their filter values are arbitrary JSON scalars, and result
rows are arbitrary dicts.  Both are modelled permissively. -/

/-- A JSON/Python scalar value as found in an LLM-produced interpretation. -/
inductive PyVal where
  | pstr (s : Str)
  | pnum (q : ℚ)
deriving DecidableEq, Repr

/-- A filter dict as seen by `_extract_place_types`: only the `'type'` and
`'value'` keys are read (`.get`, so both may be absent). -/
structure MFilter where
  ftype : Option Str
  value : Option PyVal
deriving DecidableEq, Repr

/-- The part of an interpretation dict read by `MapsService`
(`interpretation.get('filters', [])`). -/
structure MInterp where
  filters : List MFilter
deriving DecidableEq, Repr

/-- A `'center'` dict of a result row; `none` components model missing
`'lat'`/`'lng'` keys (indexing them raises `KeyError`). -/
structure MCenter where
  lat : Option ℚ
  lng : Option ℚ
deriving DecidableEq, Repr

/-- One place dict of a `places_nearby` response (all fields read with
`.get`). -/
structure RawPlace where
  name : Option Str
  types : List Str
  rating : Option ℚ
  location : Option (ℚ × ℚ)
deriving DecidableEq, Repr

/-- The summarised place entry attached to a row (maps_service.py
lines 45-53). -/
structure PlaceEntry where
  name : Option Str
  ptype : Str
  rating : Option ℚ
  location : Option (ℚ × ℚ)
deriving DecidableEq, Repr

/-- A result row as seen by `enrich_with_places`: the `'center'` key (absent
or present, possibly missing coordinates), the `'nearby_places'` key the
function may add, and the remaining dict entries, which it never touches. -/
structure MRow where
  center : Option MCenter
  nearby_places : Option (List PlaceEntry)
  attrs : List (Str × PyVal)
deriving DecidableEq, Repr

/-- The `type_mapping` dict lookup of `_extract_place_types`
(maps_service.py lines 124-137). -/
def type_mapping (value : Str) : Option Str :=
  if value == "cafe".toList then some "cafe".toList
  else if value == "coffee".toList then some "cafe".toList
  else if value == "restaurant".toList then some "restaurant".toList
  else if value == "gym".toList then some "gym".toList
  else if value == "school".toList then some "school".toList
  else if value == "bank".toList then some "bank".toList
  else if value == "hospital".toList then some "hospital".toList
  else if value == "pharmacy".toList then some "pharmacy".toList
  else if value == "park".toList then some "park".toList
  else none

/-- The filter loop of `_extract_place_types` (lines 119-137).
`filter_item.get('value', '').lower()` raises `AttributeError` when the
stored value is not a string; the loop runs outside any `try`. -/
def extract_place_types_filters : List MFilter → Except Str (List Str)
  | [] => .ok []
  | f :: rest =>
    if f.ftype == some "business".toList then
      match f.value.getD (PyVal.pstr []) with
      | .pnum _ => .error "AttributeError: lower".toList
      | .pstr s =>
        let value := lowerStr s
        (extract_place_types_filters rest).map (fun ts =>
          match type_mapping value with
          | some t => t :: ts
          | none => ts)
    else extract_place_types_filters rest

/-- `MapsService._extract_place_types` (lines 113-139), including the final
`return place_types or ['cafe']`. -/
def extract_place_types (interpretation : MInterp) : Except Str (List Str) :=
  (extract_place_types_filters interpretation.filters).map
    (fun ts => if ts.isEmpty then ["cafe".toList] else ts)

/-- The dict built for one place of the response (lines 46-51):
`place.get('types', [])[0] if place.get('types') else 'unknown'`. -/
def convertPlace (p : RawPlace) : PlaceEntry :=
  { name := p.name
    ptype := match p.types with
             | [] => "unknown".toList
             | t :: _ => t
    rating := p.rating
    location := p.location }

/-- The `for result in results` loop of `enrich_with_places` (lines 33-56).
`oracle i` models the `places_nearby` HTTP call for row `i` (every
exception inside the `try` is caught and answered with
`result['nearby_places'] = []`).  The accesses `result['center']['lat']`
and `result['center']['lng']` happen before the `try` and are not guarded:
a missing key raises out of the whole call. -/
def enrich_rows (oracle : ℕ → Except Str (List RawPlace)) :
    ℕ → List MRow → Except Str (List MRow)
  | _, [] => .ok []
  | i, r :: rest =>
    match r.center with
    | none => (enrich_rows oracle (i + 1) rest).map (r :: ·)
    | some c =>
      match c.lat with
      | none => .error "KeyError: lat".toList
      | some _ =>
        match c.lng with
        | none => .error "KeyError: lng".toList
        | some _ =>
          let r' :=
            match oracle i with
            | .error _ => { r with nearby_places := some [] }
            | .ok places =>
              { r with nearby_places := some ((places.take 5).map convertPlace) }
          (enrich_rows oracle (i + 1) rest).map (r' :: ·)

/-- `MapsService.enrich_with_places` (maps_service.py lines 23-58).
`enabled` is `self.enabled` (whether `GOOGLE_MAPS_API_KEY` is set).  The
extracted place types only select which `type=` parameter the HTTP call
gets; the call itself is the `oracle`. -/
def enrich_with_places (enabled : Bool) (oracle : ℕ → Except Str (List RawPlace))
    (results : List MRow) (interpretation : MInterp) : Except Str (List MRow) :=
  if !enabled then .ok results
  else
    match extract_place_types interpretation with
    | .error e => .error e
    | .ok _place_types => enrich_rows oracle 0 results

/-- A places oracle whose HTTP call always raises (used to exercise the
per-row failure path on concrete inputs). -/
def alwaysFailPlaces : ℕ → Except Str (List RawPlace) :=
  fun _ => .error "boom".toList

/-! ## `advanced_features_service.py` — confidence heuristic and city scores -/

/-- The `certainty_words` list of `_calculate_confidence`. -/
def certainty_words : List Str :=
  ["clearly".toList, "definitely".toList, "obviously".toList, "certainly".toList]

/-- The `uncertainty_words` list of `_calculate_confidence`. -/
def uncertainty_words : List Str :=
  ["possibly".toList, "might".toList, "perhaps".toList, "unclear".toList]

/-- `PhotoAnalysisService._calculate_confidence`
(advanced_features_service.py lines 178-194).  The decimal float constants
are modelled exactly in `ℚ`; the final `max(0.0, min(1.0, confidence))` is
kept verbatim. -/
def calculate_confidence (text : Str) : ℚ :=
  let text_lower := lowerStr text
  let afterCertainty :=
    certainty_words.foldl
      (fun confidence word =>
        if strContains word text_lower then confidence + 1/10 else confidence)
      (1/2)
  let confidence :=
    uncertainty_words.foldl
      (fun confidence word =>
        if strContains word text_lower then confidence - 1/10 else confidence)
      afterCertainty
  max 0 (min 1 confidence)

/-- The competition levels occurring in `comp_map`
(`{"low": 20, "medium": 12, "medium-high": 8, "high": 5}`), ordered
`low < medium < medium-high < high`. -/
inductive CompLevel where
  | low
  | medium
  | mediumHigh
  | high
deriving DecidableEq, Repr

/-- The `comp_map` dict of `_calculate_city_score` (line 756). -/
def comp_map : CompLevel → ℚ
  | .low => 20
  | .medium => 12
  | .mediumHigh => 8
  | .high => 5

/-- Position of a level in the order `low < medium < medium-high < high`. -/
def compRank : CompLevel → ℕ
  | .low => 0
  | .medium => 1
  | .mediumHigh => 2
  | .high => 3

/-- The fields of a `_get_city_database` entry that `_calculate_city_score`
reads, with the string fields already parsed the way the score function
parses them: `population` is `float(s.replace("M", ""))`, `avg_income` is
`int(s.replace("R$ ", "").replace(",", ""))`, `growth_rate` is
`float(s.replace("%", ""))`, and `competition` is the key looked up in
`comp_map`. -/
structure CityData where
  population : ℚ
  avg_income : ℚ
  competition : CompLevel
  growth_rate : ℚ
deriving DecidableEq, Repr

/-- `MultiCityComparisonService._get_city_database`
(advanced_features_service.py lines 682-740), restricted to the
score-relevant fields: São Paulo `12.3M / R$ 4,200 / high / 1.8%`,
Rio de Janeiro `6.7M / R$ 3,800 / medium-high / 1.2%`,
Porto Alegre `1.4M / R$ 3,400 / medium / 2.2%`,
Curitiba `1.9M / R$ 3,600 / medium / 2.5%`,
Belo Horizonte `2.5M / R$ 3,300 / medium / 2.0%`. -/
def city_database : List (Str × CityData) :=
  [("São Paulo".toList, ⟨123/10, 4200, .high, 18/10⟩),
   ("Rio de Janeiro".toList, ⟨67/10, 3800, .mediumHigh, 12/10⟩),
   ("Porto Alegre".toList, ⟨14/10, 3400, .medium, 22/10⟩),
   ("Curitiba".toList, ⟨19/10, 3600, .medium, 25/10⟩),
   ("Belo Horizonte".toList, ⟨25/10, 3300, .medium, 2⟩)]

/-- Python's `round` to the nearest integer (ties to even). -/
def round_half_even (q : ℚ) : ℤ :=
  if q - ⌊q⌋ < 1/2 then ⌊q⌋
  else if 1/2 < q - ⌊q⌋ then ⌊q⌋ + 1
  else if Even ⌊q⌋ then ⌊q⌋ else ⌊q⌋ + 1

/-- Python's `round(x, 1)`. -/
def round1 (q : ℚ) : ℚ := (round_half_even (10 * q) : ℚ) / 10

/-- `MultiCityComparisonService._calculate_city_score` (lines 742-765).
`criteria` and `business_type` are accepted and ignored, exactly as in the
source body. -/
def calculate_city_score (data : CityData) (_criteria : List (Str × PyVal))
    (_business_type : Str) : ℚ :=
  let base_score : ℚ := 50
  let pop_score := min (data.population * 3) 20
  let income_score := min (data.avg_income / 200) 15
  let comp_score := comp_map data.competition
  let growth_score := data.growth_rate * 3
  round1 (min (base_score + pop_score + income_score + comp_score + growth_score) 100)

/-- The population values of the five-city table. -/
def table_populations : List ℚ := city_database.map (fun c => c.2.population)

/-- The average-income values of the five-city table. -/
def table_incomes : List ℚ := city_database.map (fun c => c.2.avg_income)

/-- The competition levels of the five-city table. -/
def table_competitions : List CompLevel := city_database.map (fun c => c.2.competition)

/-- The growth-rate values of the five-city table. -/
def table_growths : List ℚ := city_database.map (fun c => c.2.growth_rate)

/-! ## `routing_service.py` — the meeting-point endpoint (unconfigured) -/

/-- A `Dict[str, float]` request payload entry (pydantic validates value
types but not which keys are present). -/
abbrev LocDict := List (Str × ℚ)

/-- Python dict indexing `d[k]` on a `LocDict` (`none` models `KeyError`). -/
def dictLookup (k : Str) : LocDict → Option ℚ
  | [] => none
  | (k', v) :: rest => if k' == k then some v else dictLookup k rest

/-- `sum(loc[k] for loc in locations)`; `none` when some `loc` lacks `k`
(the generator raises `KeyError`). -/
def sumKey (k : Str) (locations : List LocDict) : Option ℚ :=
  locations.foldr
    (fun l acc =>
      match dictLookup k l, acc with
      | some v, some s => some (v + s)
      | _, _ => none)
    (some 0)

/-- The `"optimal_meeting_point"` dict of the mock payload. -/
structure MeetingPoint where
  name : Str
  location_lat : ℚ
  location_lng : ℚ
  address : Str
  rating : ℚ
  total_travel_time_minutes : ℚ
deriving DecidableEq, Repr

/-- The two payload shapes `find_optimal_meeting_point` can return when the
maps key is absent. -/
inductive MeetingResult where
  | needTwo
  | mockPoint (participant_locations : List LocDict) (point : MeetingPoint) (mode : Str)
deriving DecidableEq, Repr

/-- `RoutingService._mock_optimal_meeting_point` (routing_service.py lines
480-500): computes the centroid with unguarded `loc['lat']` / `loc['lng']`
dict indexing (the `"lat"` entry of the dict literal is evaluated first). -/
def mock_optimal_meeting_point (locations : List LocDict) (mode : Str) :
    Except Str MeetingResult :=
  match sumKey "lat".toList locations with
  | none => .error "KeyError: lat".toList
  | some slat =>
    match sumKey "lng".toList locations with
    | none => .error "KeyError: lng".toList
    | some slng =>
      .ok (.mockPoint locations
        ⟨"Central Café".toList, slat / locations.length, slng / locations.length,
         "Downtown Area".toList, 9/2, 25⟩ mode)

/-- `RoutingService.find_optimal_meeting_point` (lines 253-318) in the
unconfigured state (`self.enabled = False`): fewer than two locations get
the error payload (still a normal return), otherwise the mock branch runs. -/
def find_optimal_meeting_point_unconfigured (locations : List LocDict)
    (mode : Str) : Except Str MeetingResult :=
  if locations.length < 2 then .ok .needTwo
  else mock_optimal_meeting_point locations mode

/-! ## `main.py` — HTTP handlers -/

/-- The outcome of a FastAPI handler: a `200` JSON payload, or the
`HTTPException(status_code=500, detail=...)` raised from its `except`
branch. -/
inductive HResp (α : Type) where
  | ok (payload : α)
  | serverError (detail : Str)
deriving DecidableEq, Repr

/-- Whether a handler outcome is an HTTP success. -/
def HResp.isSuccess {α : Type} : HResp α → Bool
  | .ok _ => true
  | .serverError _ => false

/-- The `/routing/meeting-point` handler (main.py lines 379-393) in the
unconfigured state: any exception from the service is converted to a 500
response. -/
def meeting_point_handler_unconfigured (locations : List LocDict) (mode : Str) :
    HResp MeetingResult :=
  match find_optimal_meeting_point_unconfigured locations mode with
  | .ok p => .ok p
  | .error e => .serverError e

/-- `MapsService.enrich_database` (maps_service.py lines 93-111): without
the key it returns the `{"error": ...}` dict, with it the placeholder
success dict; neither branch can raise. -/
def enrich_database (enabled : Bool) : List (Str × Str) :=
  if enabled then
    [("status".toList, "success".toList),
     ("message".toList, "Database enrichment would be performed here".toList),
     ("note".toList, "Implement based on your specific needs and rate limits".toList)]
  else
    [("error".toList, "Google Maps API not configured".toList)]

/-- The `{"success": True, "result": result}` body of `/enrich-data`. -/
structure EnrichDataBody where
  success : Bool
  result : List (Str × Str)
deriving DecidableEq, Repr

/-- The `/enrich-data` handler (main.py lines 185-195).  `enrich_database`
is total, so the `except` branch raising `HTTPException(500)` is dead and
the handler always returns the success body. -/
def enrich_data_handler (enabled : Bool) : HResp EnrichDataBody :=
  .ok ⟨true, enrich_database enabled⟩

/-- The body of a `POST /query` request (`QueryRequest` in main.py). -/
structure QueryRequest where
  query : Str
  context : Option (List (Str × PyVal))
deriving DecidableEq, Repr

/-- `LLMService._fallback_sql_query` (llm_service.py lines 170-192): the
fixed template, with the city spliced in between single quotes by the
f-string. -/
def fallback_sql_query (interpretation : Interpretation) : Str :=
  let quote : Char := Char.ofNat 39
  let city_filter : Str :=
    match interpretation.location.city with
    | some city => "WHERE city = ".toList ++ [quote] ++ city ++ [quote]
    | none => []
  "
        SELECT
            d.id,
            d.neighborhood as name,
            d.population,
            d.density,
            ST_AsGeoJSON(d.geom) as geometry,
            COUNT(poi.id) as nearby_pois
        FROM demographics d
        LEFT JOIN points_of_interest poi
            ON ST_DWithin(d.geom, poi.geom, 500)
        ".toList ++ city_filter ++ "
        GROUP BY d.id, d.neighborhood, d.population, d.density, d.geom
        ORDER BY d.density DESC
        LIMIT 50;
        ".toList

/-- `determine_visualization_type` (main.py lines 532-547). -/
def determine_visualization_type {α : Type} (interpretation : Interpretation)
    (results : List α) : Str :=
  if results.isEmpty then "none".toList
  else
    let query_type := lowerStr interpretation.query_type
    if strContains "heatmap".toList query_type ||
       strContains "density".toList (lowerStr interpretation.analysis_type) then
      "heatmap".toList
    else if strContains "polygon".toList query_type ||
            strContains "area".toList query_type then
      "polygon".toList
    else if strContains "route".toList query_type ||
            strContains "path".toList query_type then
      "polyline".toList
    else
      "markers".toList

/-- The result rows of a `QueryResponse`, flattening the two provenances
into one list (in Python both are plain dict lists). -/
def QueryOutcome.rows {DbRow : Type} : QueryOutcome DbRow → List (DbRow ⊕ MockRow)
  | .fromDb rs => rs.map Sum.inl
  | .mock rs => rs.map Sum.inr

/-- The `QueryResponse` pydantic model of main.py.  The `interpretation`
field is the JSON text `json.dumps(interpretation, indent=2)` in Python; it
is carried structurally here (`none` models the `""` of the error branch). -/
structure QueryResponseM (DbRow : Type) where
  query : Str
  interpretation : Option Interpretation
  sql_query : Str
  results : List (DbRow ⊕ MockRow)
  visualization_type : Str
  success : Bool
  error : Option Str
deriving DecidableEq, Repr

/-- The `/query` handler `process_query` (main.py lines 94-138) in the
unconfigured state: no `GEMINI_API_KEY` (steps 1 and 2 take the fallback
branches, which are total), no `GOOGLE_MAPS_API_KEY` (step 4's
`enrich_with_places` returns the rows unchanged), and the database oracles
of step 3 free to fail.  Every step is total, so the handler's `except`
branch is unreachable and the success response is always built. -/
def process_query_unconfigured {DbRow : Type} (create : Option Pool)
    (runQ : Pool → Str → Except Str (List DbRow)) (s : GeoState)
    (request : QueryRequest) : QueryResponseM DbRow × GeoState :=
  let interpretation := fallback_interpretation request.query
  let sql_query := fallback_sql_query interpretation
  let er := execute_query create runQ sql_query interpretation s
  let results := er.1.rows
  let viz_type := determine_visualization_type interpretation results
  ({ query := request.query
     interpretation := some interpretation
     sql_query := sql_query
     results := results
     visualization_type := viz_type
     success := true
     error := none }, er.2)

/-! ## Remaining endpoint handlers in the unconfigured state

The spec's §8 property quantifies over every endpoint, so the rest of the
HTTP surface is embedded below.  Constant sub-trees of mock payload dict
literals (fixed strings and lists that no code computes and no claim
inspects) are collapsed to the entries that matter; every computed entry
(f-string interpolation, arithmetic, indexing into request data) is
modelled.  Python's `str(float)` rendering inside f-strings is the total
oracle `showNum : ℚ → Str`; the values of `math.cos`/`math.sin` at the
16 loop angles of the isochrone mock are the total oracles
`cosF sinF : ℕ → ℚ`. -/

/-- Python `int()` applied to a float: truncation toward zero. -/
def truncQ (q : ℚ) : ℤ := if q < 0 then -(⌊-q⌋) else ⌊q⌋

/-- Python `round(x, 2)`. -/
def round2 (q : ℚ) : ℚ := (round_half_even (100 * q) : ℚ) / 100

/-- Python dict insertion `d[k] = v` on an insertion-ordered assoc list:
replaces the value at an existing key in place, else appends. -/
def upsert {α : Type} (k : Str) (v : α) : List (Str × α) → List (Str × α)
  | [] => [(k, v)]
  | (k', v') :: rest =>
    if k' == k then (k, v) :: rest else (k', v') :: upsert k v rest

/-- Helper for `titleStr`: tracks whether the previous character was a
letter. -/
def titleChars : Bool → Str → Str
  | _, [] => []
  | prevAlpha, c :: rest =>
    if c.isAlpha then
      (if prevAlpha then c.toLower else c.toUpper) :: titleChars true rest
    else
      c :: titleChars false rest

/-- Python `str.title()` (over the ASCII letters occurring here). -/
def titleStr (s : Str) : Str := titleChars false s

/-- Python dict indexing `.get(k)` on a JSON-valued parameter dict. -/
def dictGetPV (k : Str) : List (Str × PyVal) → Option PyVal
  | [] => none
  | (k', v) :: rest => if k' == k then some v else dictGetPV k rest

/-- Python `str(v)` of a JSON scalar (numbers through `showNum`). -/
def renderPV (showNum : ℚ → Str) : PyVal → Str
  | .pstr s => s
  | .pnum q => showNum q

/-- The static payload of `GET /` (main.py lines 66-76). -/
structure RootPayload where
  message : Str
  status : Str
  endpoints : List Str
deriving DecidableEq, Repr

/-- The `GET /` handler: a constant dict. -/
def root_handler : HResp RootPayload :=
  .ok ⟨"GeoMindIA - Intelligent Geospatial Analysis".toList,
       "running".toList,
       ["/query".toList, "/health".toList, "/sample-queries".toList]⟩

/-- `check_connection` of the LLM, maps, vision and routing services (four
identical one-liners): `"healthy"` when the service's key is set,
`"disabled"` otherwise. -/
def service_check_connection (enabled : Bool) : Str :=
  if enabled then "healthy".toList else "disabled".toList

/-- The `GET /health` payload (one status string per service). -/
structure HealthPayload where
  api : Str
  database : Str
  llm : Str
  maps : Str
  vision : Str
  routing : Str
  advanced_features : Str
deriving DecidableEq, Repr

/-- The `GET /health` handler (main.py lines 79-91).  Every
`check_connection` is total — the geospatial one catches its own
exceptions — so the handler always returns the status dict. -/
def health_handler (create : Option Pool) (ping : Pool → Except Str Unit)
    (llmE mapsE visionE routingE : Bool) (s : GeoState) :
    HResp HealthPayload × GeoState :=
  let r := check_connection create ping s
  (.ok ⟨"healthy".toList, r.1, service_check_connection llmE,
        service_check_connection mapsE, service_check_connection visionE,
        service_check_connection routingE, "healthy".toList⟩, r.2)

/-- One category block of `GET /sample-queries`. -/
structure SampleCategory where
  category : Str
  queries : List Str
deriving DecidableEq, Repr

/-- The `GET /sample-queries` handler (main.py lines 141-182): a constant
payload. -/
def sample_queries_handler : HResp (List SampleCategory) :=
  .ok
    [⟨"Business Analysis".toList,
      ["Show me areas with high potential for coffee shops considering young population density and no competitors within 500 meters".toList,
       "Find commercial zones with high foot traffic near public transportation".toList,
       "Compare street view quality of 3 potential restaurant locations".toList,
       "Analyze satellite imagery of downtown for commercial development potential".toList]⟩,
     ⟨"Route & Accessibility".toList,
      ["Show areas reachable within 10 minutes walking from metro station".toList,
       "Optimize route to visit all 5 potential store locations today".toList,
       "Find location most accessible to hospitals, schools, and transit".toList,
       "Calculate best meeting point for team distributed across the city".toList]⟩,
     ⟨"Urban Planning".toList,
      ["Show areas lacking green spaces within 1km radius".toList,
       "Find zones with high population density but low public service coverage".toList,
       "Rank neighborhoods by walkability and accessibility scores".toList]⟩,
     ⟨"Comparative Analysis".toList,
      ["Compare best 3 neighborhoods for opening a tech coworking space".toList,
       "Find undervalued areas likely to gentrify in 2 years".toList,
       "Identify food deserts that need grocery stores".toList,
       "Evaluate foot traffic indicators from street view across multiple locations".toList]⟩]

/-- One feature block of `GET /advanced/features`. -/
structure FeatureInfo where
  name : Str
  endpoint : Str
  description : Str
  status : Str
deriving DecidableEq, Repr

/-- The `GET /advanced/features` handler (main.py lines 495-525); the
photo/time-travel statuses read the services' `enabled` flags. -/
def advanced_features_info_handler (photoE timeTravelE : Bool) :
    HResp (List FeatureInfo) :=
  .ok
    [⟨"Photo Analysis".toList, "/advanced/photo-analysis".toList,
      "Upload photo and identify location with AI".toList,
      if photoE then "enabled".toList else "mock".toList⟩,
     ⟨"Time Travel".toList, "/advanced/time-travel".toList,
      "See historical changes in satellite imagery".toList,
      if timeTravelE then "enabled".toList else "mock".toList⟩,
     ⟨"What-If Simulator".toList, "/advanced/what-if".toList,
      "Simulate urban changes and predict impacts".toList,
      "enabled".toList⟩,
     ⟨"Multi-City Comparison".toList, "/advanced/compare-cities".toList,
      "Automatically compare multiple cities".toList,
      "enabled".toList⟩]

/-- The payload of `_mock_satellite_analysis` (vision_service.py lines
350-377). -/
structure SatellitePayload where
  location : GeoCenter
  analysis_type : Str
  insights : Str
  image_url : Str
  success : Bool
  mock : Bool
deriving DecidableEq, Repr

/-- `VisionService._mock_satellite_analysis`: a constant text with the
coordinates interpolated. -/
def mock_satellite_analysis (showNum : ℚ → Str) (lat lng : ℚ)
    (analysis_type : Str) : SatellitePayload :=
  { location := ⟨lat, lng⟩
    analysis_type := analysis_type
    insights :=
      "
            Mock Satellite Analysis for (".toList ++ showNum lat ++
      ", ".toList ++ showNum lng ++ "):

            Commercial Potential Score: 7.5/10

            Key Observations:
            - High building density with mixed commercial-residential use
            - Good street accessibility with main road access
            - Moderate parking availability
            - Active commercial zone with visible businesses
            - Well-maintained infrastructure

            Recommendations:
            - Suitable for retail or food service business
            - Consider corner location for maximum visibility
            - Peak activity likely during business hours

            Note: Enable Gemini API for AI-powered analysis
            ".toList
    image_url :=
      "https://via.placeholder.com/640x640.png?text=Satellite+View+".toList ++
        showNum lat ++ ",".toList ++ showNum lng
    success := true
    mock := true }

/-- The `/analyze/satellite` handler (main.py lines 207-223) in the
unconfigured state: the vision service is disabled and returns its mock
before touching anything that can raise; `zoom` is accepted unused. -/
def analyze_satellite_handler_unconfigured (showNum : ℚ → Str) (lat lng : ℚ)
    (_zoom : ℤ) (analysis_type : Str) : HResp SatellitePayload :=
  .ok (mock_satellite_analysis showNum lat lng analysis_type)

/-- The payload of `_mock_street_view_analysis` (vision_service.py lines
379-403). -/
structure StreetViewPayload where
  location_lat : ℚ
  location_lng : ℚ
  heading : ℤ
  analysis_focus : Str
  insights : Str
  image_url : Str
  success : Bool
  mock : Bool
deriving DecidableEq, Repr

/-- `VisionService._mock_street_view_analysis` (the `location` dict of the
source also carries `heading`; the insights text is constant). -/
def mock_street_view_analysis (showNum : ℚ → Str) (lat lng : ℚ)
    (heading : ℤ) (focus : Str) : StreetViewPayload :=
  { location_lat := lat
    location_lng := lng
    heading := heading
    analysis_focus := focus
    insights :=
      "
            Mock Street View Analysis:

            Storefront Quality: 8/10

            Observations:
            - Well-maintained building facades
            - Clear and professional signage
            - Good pedestrian access with wide sidewalks
            - Active street with multiple businesses
            - Clean and safe appearance

            Suitability: High - Excellent location for customer-facing business

            Note: Enable Gemini API for AI-powered visual analysis
            ".toList
    image_url :=
      "https://via.placeholder.com/640x640.png?text=Street+View+".toList ++
        showNum lat ++ ",".toList ++ showNum lng
    success := true
    mock := true }

/-- The `/analyze/streetview` handler (main.py lines 233-249) in the
unconfigured state.  (The source mock does not receive `heading`; it is
carried here only so the payload mirrors the `location` dict shape.) -/
def analyze_street_view_handler_unconfigured (showNum : ℚ → Str)
    (lat lng : ℚ) (heading : ℤ) (analysis_focus : Str) :
    HResp StreetViewPayload :=
  .ok (mock_street_view_analysis showNum lat lng heading analysis_focus)

/-- One entry of the `"individual_analyses"` list of
`analyze_multiple_locations`. -/
structure LocationAnalysis where
  location : LocDict
  analysis : SatellitePayload
deriving DecidableEq, Repr

/-- The payload of `/analyze/compare-locations` in the unconfigured
state. -/
structure ComparePayload where
  individual_analyses : List LocationAnalysis
  comparative_summary : Str
  success : Bool
deriving DecidableEq, Repr

/-- The `for loc in locations[:5]` loop of `analyze_multiple_locations`
(vision_service.py lines 129-139): `loc['lat']` and `loc['lng']` are
unguarded dict indexes evaluated at the call site, so a missing key raises
`KeyError` out of the whole call. -/
def compare_locations_loop (showNum : ℚ → Str) :
    List LocDict → Except Str (List LocationAnalysis)
  | [] => .ok []
  | loc :: rest =>
    match dictLookup "lat".toList loc with
    | none => .error "KeyError: lat".toList
    | some la =>
      match dictLookup "lng".toList loc with
      | none => .error "KeyError: lng".toList
      | some ln =>
        (compare_locations_loop showNum rest).map
          (⟨loc, mock_satellite_analysis showNum la ln
              "commercial_potential".toList⟩ :: ·)

/-- The `/analyze/compare-locations` handler (main.py lines 257-271) in the
unconfigured state: `self.enabled` is false, so the comparative-summary
branch is skipped and the constant summary string is returned. -/
def compare_locations_handler_unconfigured (showNum : ℚ → Str)
    (locations : List LocDict) (_analysis_type : Str) : HResp ComparePayload :=
  match compare_locations_loop showNum (locations.take 5) with
  | .ok results =>
    .ok ⟨results, "Comparative analysis available with Gemini API".toList, true⟩
  | .error e => .serverError e

/-- The constant mock payload of `analyze_sentiment_from_reviews`
(vision_service.py lines 164-170). -/
structure SentimentPayload where
  sentiment_score : ℚ
  positive_aspects : List Str
  negative_aspects : List Str
  summary : Str
deriving DecidableEq, Repr

/-- The `/analyze/sentiment` handler (main.py lines 279-293) in the
unconfigured state: `if not self.enabled or not reviews` always takes the
mock branch, for every review list and aspect. -/
def sentiment_handler_unconfigured (_reviews : List Str) (_aspect : Str) :
    HResp SentimentPayload :=
  .ok ⟨7/10, ["location".toList, "atmosphere".toList], ["service".toList],
       "Mock sentiment analysis".toList⟩

/-- The payload of `_mock_optimized_route` (routing_service.py lines
390-406); the constant empty `"legs"` list is omitted. -/
structure RoutePayload where
  origin : LocDict
  destination : LocDict
  waypoints : List LocDict
  optimized_order : List ℕ
  total_distance_km : ℚ
  total_duration_minutes : ℚ
  mode : Str
  polyline : Str
  success : Bool
  mock : Bool
  note : Str
deriving DecidableEq, Repr

/-- `RoutingService._mock_optimized_route`: reads only `len(waypoints)` and
echoes the request dicts, so it is total for every request. -/
def mock_optimized_route (origin destination : LocDict)
    (waypoints : List LocDict) (mode : Str) : RoutePayload :=
  let total_points : ℚ := (waypoints.length : ℚ) + 2
  { origin := origin
    destination := destination
    waypoints := waypoints
    optimized_order := List.range waypoints.length
    total_distance_km := round2 (total_points * (3/2))
    total_duration_minutes := round1 (total_points * (17/2))
    mode := mode
    polyline := "mock_polyline_data".toList
    success := true
    mock := true
    note := "Enable Google Maps API for real route optimization".toList }

/-- The `/routing/optimize` handler (main.py lines 305-321) in the
unconfigured state. -/
def optimize_route_handler_unconfigured (origin destination : LocDict)
    (waypoints : List LocDict) (mode : Str) : HResp RoutePayload :=
  .ok (mock_optimized_route origin destination waypoints mode)

/-- `RoutingService._get_isochrone_color` (routing_service.py lines
378-387): `interval / max_interval` raises `ZeroDivisionError` when the
maximum interval is 0. -/
def get_isochrone_color (interval maxInterval : ℤ) : Except Str Str :=
  if maxInterval = 0 then .error "ZeroDivisionError: division by zero".toList
  else
    let ratio : ℚ := (interval : ℚ) / (maxInterval : ℚ)
    .ok (if ratio ≤ 33/100 then "#10b981".toList
         else if ratio ≤ 66/100 then "#f59e0b".toList
         else "#ef4444".toList)

/-- The 16-point circle of the isochrone mock (`[lng, lat]` pairs, closed
by re-appending the first point). -/
def iso_polygon (cosF sinF : ℕ → ℚ) (clat clng radius_deg : ℚ) :
    List (ℚ × ℚ) :=
  let pts := (List.range 16).map (fun i =>
    (clng + radius_deg * sinF i, clat + radius_deg * cosF i))
  pts ++ pts.take 1

/-- One entry of the mock `"isochrones"` list. -/
structure IsoPolygonEntry where
  duration_minutes : ℤ
  polygon : List (ℚ × ℚ)
  points_count : ℕ
  color : Str
deriving DecidableEq, Repr

/-- The `for interval in intervals` loop of `_mock_isochrone`
(routing_service.py lines 412-430): inside each iteration the polygon
points index `center['lat']`/`center['lng']` (unguarded `KeyError`), then
the color divides by `max(intervals)`. -/
def mock_isochrone_loop (cosF sinF : ℕ → ℚ) (center : LocDict) (maxI : ℤ) :
    List ℤ → Except Str (List IsoPolygonEntry)
  | [] => .ok []
  | interval :: rest =>
    match dictLookup "lat".toList center with
    | none => .error "KeyError: lat".toList
    | some clat =>
      match dictLookup "lng".toList center with
      | none => .error "KeyError: lng".toList
      | some clng =>
        let radius_deg : ℚ := (interval : ℚ) / 60 * (1/100)
        let polygon := iso_polygon cosF sinF clat clng radius_deg
        match get_isochrone_color interval maxI with
        | .error e => .error e
        | .ok color =>
          (mock_isochrone_loop cosF sinF center maxI rest).map
            (⟨interval, polygon, 16, color⟩ :: ·)

/-- The payload of `_mock_isochrone`. -/
structure IsochronePayload where
  center : LocDict
  mode : Str
  max_duration_minutes : ℤ
  isochrones : List IsoPolygonEntry
  success : Bool
  mock : Bool
  note : Str
deriving DecidableEq, Repr

/-- `RoutingService._mock_isochrone` (lines 408-440).  `max(intervals)` is
only evaluated inside a loop iteration, so it is passed pre-computed
(`getD 0` is never reached on an empty list). -/
def mock_isochrone (cosF sinF : ℕ → ℚ) (center : LocDict) (duration : ℤ)
    (mode : Str) (intervals : List ℤ) : Except Str IsochronePayload :=
  (mock_isochrone_loop cosF sinF center (intervals.max?.getD 0) intervals).map
    (fun polys => ⟨center, mode, duration, polys, true, true,
      "Enable Google Maps API for accurate isochrone calculations".toList⟩)

/-- The `if intervals is None` default of `calculate_isochrone` (lines
123-124): `[d // 3, d * 2 // 3, d]`, with Python floor division. -/
def effective_intervals (duration_minutes : ℤ)
    (intervals : Option (List ℤ)) : List ℤ :=
  intervals.getD
    [Int.fdiv duration_minutes 3, Int.fdiv (duration_minutes * 2) 3,
     duration_minutes]

/-- `RoutingService.calculate_isochrone` (lines 105-127) in the
unconfigured state: apply the interval default, then the mock runs. -/
def calculate_isochrone_unconfigured (cosF sinF : ℕ → ℚ) (center : LocDict)
    (duration_minutes : ℤ) (mode : Str) (intervals : Option (List ℤ)) :
    Except Str IsochronePayload :=
  mock_isochrone cosF sinF center duration_minutes mode
    (effective_intervals duration_minutes intervals)

/-- The `/routing/isochrone` handler (main.py lines 331-347) in the
unconfigured state. -/
def isochrone_handler_unconfigured (cosF sinF : ℕ → ℚ) (center : LocDict)
    (duration_minutes : ℤ) (mode : Str) (intervals : Option (List ℤ)) :
    HResp IsochronePayload :=
  match calculate_isochrone_unconfigured cosF sinF center duration_minutes
      mode intervals with
  | .ok p => .ok p
  | .error e => .serverError e

/-- The `poi_names.get(poi_type, poi_type.title())` lookup of the
accessibility mock (routing_service.py lines 446-457). -/
def poi_display_name (poi_type : Str) : Str :=
  if poi_type == "transit_station".toList then "Metro Station".toList
  else if poi_type == "hospital".toList then "General Hospital".toList
  else if poi_type == "school".toList then "Public School".toList
  else if poi_type == "supermarket".toList then "Supermarket".toList
  else if poi_type == "pharmacy".toList then "Pharmacy".toList
  else titleStr poi_type

/-- One value of the mock `"accessibility_scores"` dict. -/
structure AccessEntry where
  name : Str
  duration_minutes : ℤ
  distance_meters : ℤ
  score : ℚ
  location_lat : ℚ
  location_lng : ℚ
  accessible : Bool
deriving DecidableEq, Repr

/-- The `for i, poi_type in enumerate(poi_types)` loop of
`_mock_accessibility_analysis` (lines 454-466).  Within each entry the
`"score"` division by `max_duration` precedes the `location['lat']` /
`location['lng']` indexes (dict-literal evaluation order); the entries go
into a dict, so repeated types overwrite (`upsert`). -/
def accessibility_scores_go (location : LocDict) (max_duration : ℤ) :
    ℕ → List (Str × AccessEntry) → List Str →
    Except Str (List (Str × AccessEntry))
  | _, acc, [] => .ok acc
  | i, acc, poi_type :: rest =>
    let duration : ℤ := 5 + i * 3
    if max_duration = 0 then
      .error "ZeroDivisionError: division by zero".toList
    else
      match dictLookup "lat".toList location with
      | none => .error "KeyError: lat".toList
      | some la =>
        match dictLookup "lng".toList location with
        | none => .error "KeyError: lng".toList
        | some ln =>
          let entry : AccessEntry :=
            { name := poi_display_name poi_type
              duration_minutes := duration
              distance_meters := duration * 80
              score := max 0 (10 - ((duration : ℚ) / (max_duration : ℚ) * 10))
              location_lat := la + 5/1000
              location_lng := ln + 5/1000
              accessible := duration ≤ max_duration }
          accessibility_scores_go location max_duration (i + 1)
            (upsert poi_type entry acc) rest

/-- The payload of `_mock_accessibility_analysis`. -/
structure AccessPayload where
  location : LocDict
  accessibility_scores : List (Str × AccessEntry)
  overall_score : ℚ
  max_duration_minutes : ℤ
  success : Bool
  mock : Bool
  note : Str
deriving DecidableEq, Repr

/-- `RoutingService._mock_accessibility_analysis` (lines 442-478): after
the loop, `sum(...) / len(scores)` raises `ZeroDivisionError` when
`poi_types` was empty. -/
def mock_accessibility_analysis (location : LocDict) (poi_types : List Str)
    (max_duration : ℤ) : Except Str AccessPayload :=
  match accessibility_scores_go location max_duration 0 [] poi_types with
  | .error e => .error e
  | .ok scores =>
    if scores.isEmpty then
      .error "ZeroDivisionError: division by zero".toList
    else
      let overall := (scores.map (fun e => e.2.score)).sum / (scores.length : ℚ)
      .ok ⟨location, scores, round1 overall, max_duration, true, true,
        "Enable Google Maps API for real accessibility analysis".toList⟩

/-- The `if poi_types is None` default of `analyze_accessibility` (lines
193-194). -/
def effective_poi_types (poi_types : Option (List Str)) : List Str :=
  poi_types.getD
    ["transit_station".toList, "hospital".toList, "school".toList,
     "supermarket".toList, "pharmacy".toList]

/-- `RoutingService.analyze_accessibility` (lines 178-197) in the
unconfigured state: apply the poi-type default, then the mock runs. -/
def analyze_accessibility_unconfigured (location : LocDict)
    (poi_types : Option (List Str)) (max_duration : ℤ) :
    Except Str AccessPayload :=
  mock_accessibility_analysis location (effective_poi_types poi_types)
    max_duration

/-- The `/routing/accessibility` handler (main.py lines 356-371) in the
unconfigured state. -/
def accessibility_handler_unconfigured (location : LocDict)
    (poi_types : Option (List Str)) (max_duration : ℤ) : HResp AccessPayload :=
  match analyze_accessibility_unconfigured location poi_types max_duration with
  | .ok p => .ok p
  | .error e => .serverError e

/-- The constant payload of `_mock_photo_analysis`
(advanced_features_service.py lines 196-232). -/
structure PhotoPayload where
  identified_location : Str
  city : Str
  neighborhood : Str
  characteristics : List Str
  property_value_estimate : Str
  similar_locations : List Str
  confidence_score : ℚ
  full_analysis : Str
  success : Bool
  mock : Bool
deriving DecidableEq, Repr

/-- `PhotoAnalysisService._mock_photo_analysis`: a constant dict (the
`analysis_type` argument is accepted and ignored, as in the source). -/
def mock_photo_analysis (_analysis_type : Str) : PhotoPayload :=
  { identified_location := "Appears to be Avenida Paulista, São Paulo".toList
    city := "São Paulo".toList
    neighborhood := "Bela Vista / Jardins region".toList
    characteristics :=
      ["commercial".toList, "high-end".toList, "busy".toList,
       "modern".toList, "well-maintained".toList]
    property_value_estimate := "R$ 8,000 - R$ 12,000 per m".toList
    similar_locations :=
      ["Rua Oscar Freire, São Paulo".toList,
       "Avenida Atlântica, Rio de Janeiro".toList,
       "Rua XV de Novembro, Curitiba".toList]
    confidence_score := 3/4
    full_analysis :=
      "
            Mock Photo Analysis:

            This appears to be Avenida Paulista in São Paulo, one of the city".toList
      ++ [Char.ofNat 39] ++
      "s most iconic streets.

            Characteristics:
            - High-end commercial area
            - Excellent infrastructure
            - Heavy pedestrian and vehicle traffic
            - Mix of office buildings, retail, and cultural institutions
            - Well-maintained streets and sidewalks

            Property Value Estimate: R$ 8,000 - R$ 12,000 per m

            Economic Indicators: High income area, premium location

            Similar Locations:
            1. Rua Oscar Freire (São Paulo) - Luxury shopping district
            2. Av. Atlântica (Rio de Janeiro) - Beachfront commercial area
            3. Rua XV de Novembro (Curitiba) - Historic commercial center

            Note: Enable Gemini API for real AI-powered photo analysis
            ".toList
    success := true
    mock := true }

/-- The `/advanced/photo-analysis` handler (main.py lines 403-417) in the
unconfigured state: the service is disabled and answers the constant mock
for every request body. -/
def photo_analysis_handler_unconfigured (_image_data : Str)
    (analysis_type : Str) : HResp PhotoPayload :=
  .ok (mock_photo_analysis analysis_type)

/-- One entry of the `"images"` list of the time-travel mock. -/
structure TTImage where
  year : ℤ
  image_url : Str
  description : Str
deriving DecidableEq, Repr

/-- The computed part of the `_mock_historical_data` payload
(advanced_features_service.py lines 319-364); its constant strings
(urbanization level, infrastructure improvements, …) are omitted. -/
structure TimeTravelPayload where
  location : GeoCenter
  years_analyzed : List ℤ
  images : List TTImage
  new_constructions : Str
  growth_rate : ℚ
  key_changes : List Str
  prediction_5 : Str × Str
  prediction_10 : Str × Str
  success : Bool
  mock : Bool
  note : Str
deriving DecidableEq, Repr

/-- `TimeTravelService._mock_historical_data`: the images loop is total,
but the change analysis indexes `years[-1]`/`years[0]`, the key-changes
list indexes `years[0] … years[3]`, and the predictions index `years[-1]`
— all unguarded (`IndexError` for fewer than four years). -/
def mock_historical_data (lat lng : ℚ) (years : List ℤ) :
    Except Str TimeTravelPayload :=
  let images : List TTImage := years.map (fun y =>
    ⟨y,
     "https://via.placeholder.com/640x640.png?text=Satellite+".toList ++
       (Int.repr y).toList,
     "Satellite imagery from ".toList ++ (Int.repr y).toList⟩)
  match years.getLast? with
  | none => .error "IndexError: list index out of range".toList
  | some ylast =>
    match years.get? 0 with
    | none => .error "IndexError: list index out of range".toList
    | some y0 =>
      match years.get? 1 with
      | none => .error "IndexError: list index out of range".toList
      | some y1 =>
        match years.get? 2 with
        | none => .error "IndexError: list index out of range".toList
        | some y2 =>
          match years.get? 3 with
          | none => .error "IndexError: list index out of range".toList
          | some y3 =>
            .ok
              { location := ⟨lat, lng⟩
                years_analyzed := years
                images := images
                new_constructions :=
                  (Int.repr ((ylast - y0) * 8)).toList ++
                    " new buildings".toList
                growth_rate := round2 ((ylast - y0 : ℚ) * (7/200))
                key_changes :=
                  [(Int.repr y0).toList ++
                     ": Predominantly residential area".toList,
                   (Int.repr y1).toList ++
                     ": First shopping center opened".toList,
                   (Int.repr y2).toList ++
                     ": Metro expansion completed".toList,
                   (Int.repr y3).toList ++
                     ": Major vertical development, multiple towers".toList]
                prediction_5 :=
                  ((Int.repr (ylast + 5)).toList,
                   "Continued verticalization, +30% density expected".toList)
                prediction_10 :=
                  ((Int.repr (ylast + 10)).toList,
                   "Complete transformation to high-rise urban center".toList)
                success := true
                mock := true
                note :=
                  "Enable Google Earth Engine API for real historical imagery".toList }

/-- The `if years is None` default of `get_historical_comparison` (lines
262-263): `[2010, 2015, 2020, 2024]`. -/
def effective_years (years : Option (List ℤ)) : List ℤ :=
  years.getD [2010, 2015, 2020, 2024]

/-- `TimeTravelService.get_historical_comparison` (lines 243-292) in the
unconfigured state: apply the year default, then the mock runs. -/
def get_historical_comparison_unconfigured (lat lng : ℚ)
    (years : Option (List ℤ)) : Except Str TimeTravelPayload :=
  mock_historical_data lat lng (effective_years years)

/-- The `/advanced/time-travel` handler (main.py lines 426-441) in the
unconfigured state. -/
def time_travel_handler_unconfigured (lat lng : ℚ)
    (years : Option (List ℤ)) : HResp TimeTravelPayload :=
  match get_historical_comparison_unconfigured lat lng years with
  | .ok p => .ok p
  | .error e => .serverError e

/-- The computed part of the shopping-mall simulation payload
(advanced_features_service.py lines 449-506); constant prose omitted. -/
structure MallPayload where
  scenario : Str
  location : GeoCenter
  size : PyVal
  estimated_stores : ℤ
  parking_spaces : ℤ
  daily_visitors_estimate : ℤ
  traffic_increase : ℤ
  pv_immediate_lo : ℤ
  pv_immediate_hi : ℤ
  pv_2y_lo : ℤ
  pv_2y_hi : ℤ
  direct_jobs : ℤ
  indirect_jobs : ℤ
  service_jobs : ℤ
  new_buildings_5years : ℤ
  success : Bool
deriving DecidableEq, Repr

/-- The computed part of the population-growth simulation payload (lines
508-561); constant prose omitted. -/
structure PopulationPayload where
  scenario : Str
  location : GeoCenter
  growth : ℚ
  schools : ℤ
  prices_lo : ℤ
  prices_hi : ℤ
  rent_lo : ℤ
  rent_hi : ℤ
  retail : ℤ
  restaurants : ℤ
  traffic : ℤ
  noise : ℤ
  success : Bool
deriving DecidableEq, Repr

/-- The computed part of the new-park simulation payload (lines 563-601);
constant prose omitted. -/
structure ParkPayload where
  scenario : Str
  location : GeoCenter
  size_hectares : ℚ
  adjacent_lo : ℤ
  adjacent_hi : ℤ
  r500_lo : ℤ
  r500_hi : ℤ
  r1k_lo : ℤ
  r1k_hi : ℤ
  air : ℤ
  noise : ℤ
  temperature : ℚ
  events : ℤ
  foot : ℤ
  cafes : ℤ
  sales : ℤ
  success : Bool
deriving DecidableEq, Repr

/-- The payload shapes the what-if simulator can return (metro,
commercial-zone and generic are constant dicts carrying the location). -/
inductive WhatIfPayload where
  | metro (location : GeoCenter)
  | mall (p : MallPayload)
  | population (p : PopulationPayload)
  | park (p : ParkPayload)
  | commercial (location : GeoCenter)
  | generic (location : GeoCenter)
deriving DecidableEq, Repr

/-- `WhatIfSimulatorService.simulate_scenario` (lines 370-398) with the
five per-scenario simulators inlined.  The metro, commercial-zone and
generic simulators never read `parameters`; the other three call
`parameters.get(...)` — `AttributeError` when the request supplied
`parameters: null` — and then do arithmetic on the value: `int(x / 10)` /
`x * 0.3`-style operations raise `TypeError`/`ValueError` when the value
is a string (for every string: digit strings survive `int(x * 2)` but
fail at the first multiplication by a float).  The mall simulator only
feeds its value to `multipliers.get`, which is total on the string and
number values representable here. -/
def simulate_scenario (showNum : ℚ → Str) (lat lng : ℚ)
    (scenario_type : Str) (parameters : Option (List (Str × PyVal))) :
    Except Str WhatIfPayload :=
  if scenario_type == "new_metro_station".toList then
    .ok (.metro ⟨lat, lng⟩)
  else if scenario_type == "new_shopping_mall".toList then
    match parameters with
    | none => .error "AttributeError: get".toList
    | some params =>
      let mall_size := (dictGetPV "size".toList params).getD
        (.pstr "medium".toList)
      let mult : ℚ :=
        if mall_size == PyVal.pstr "small".toList then 1/2
        else if mall_size == PyVal.pstr "medium".toList then 1
        else if mall_size == PyVal.pstr "large".toList then 9/5
        else 1
      .ok (.mall
        { scenario := "New Shopping Mall (".toList ++
            renderPV showNum mall_size ++ ")".toList
          location := ⟨lat, lng⟩
          size := mall_size
          estimated_stores := truncQ (80 * mult)
          parking_spaces := truncQ (800 * mult)
          daily_visitors_estimate := truncQ (15000 * mult)
          traffic_increase := truncQ (35 * mult)
          pv_immediate_lo := truncQ (5 * mult)
          pv_immediate_hi := truncQ (10 * mult)
          pv_2y_lo := truncQ (12 * mult)
          pv_2y_hi := truncQ (18 * mult)
          direct_jobs := truncQ (1200 * mult)
          indirect_jobs := truncQ (800 * mult)
          service_jobs := truncQ (400 * mult)
          new_buildings_5years := truncQ (15 * mult)
          success := true })
  else if scenario_type == "population_increase".toList then
    match parameters with
    | none => .error "AttributeError: get".toList
    | some params =>
      match (dictGetPV "growth_percentage".toList params).getD (.pnum 30) with
      | .pstr _ => .error "TypeError: unsupported operand".toList
      | .pnum g =>
        .ok (.population
          { scenario := "Population Increase +".toList ++ showNum g ++
              "%".toList
            location := ⟨lat, lng⟩
            growth := g
            schools := truncQ (g / 10)
            prices_lo := truncQ (g * (4/5))
            prices_hi := truncQ (g * (6/5))
            rent_lo := truncQ (g * (3/5))
            rent_hi := truncQ (g * (9/10))
            retail := truncQ (g * (7/10))
            restaurants := truncQ (g * (6/5))
            traffic := truncQ (g * (3/2))
            noise := truncQ (g * (4/5))
            success := true })
  else if scenario_type == "new_park".toList then
    match parameters with
    | none => .error "AttributeError: get".toList
    | some params =>
      match (dictGetPV "size_hectares".toList params).getD (.pnum 5) with
      | .pstr _ => .error "TypeError: unsupported operand".toList
      | .pnum s =>
        .ok (.park
          { scenario := "New Park (".toList ++ showNum s ++
              " hectares)".toList
            location := ⟨lat, lng⟩
            size_hectares := s
            adjacent_lo := truncQ (s * 2)
            adjacent_hi := truncQ (s * 3)
            r500_lo := truncQ (s * (6/5))
            r500_hi := truncQ (s * (9/5))
            r1k_lo := truncQ (s * (1/2))
            r1k_hi := truncQ (s * (4/5))
            air := truncQ (s * 2)
            noise := truncQ (s * (3/2))
            temperature := s * (3/10)
            events := truncQ (s * 10)
            foot := truncQ (s * 20)
            cafes := truncQ (s * 8)
            sales := truncQ (s * 15)
            success := true })
  else if scenario_type == "commercial_zone".toList then
    .ok (.commercial ⟨lat, lng⟩)
  else
    .ok (.generic ⟨lat, lng⟩)

/-- The `/advanced/what-if` handler (main.py lines 451-468). -/
def what_if_handler (showNum : ℚ → Str) (lat lng : ℚ) (scenario_type : Str)
    (parameters : Option (List (Str × PyVal))) : HResp WhatIfPayload :=
  match simulate_scenario showNum lat lng scenario_type parameters with
  | .ok p => .ok p
  | .error e => .serverError e

/-- `city in city_data` / `city_data[city]` of `compare_cities`: assoc
lookup in the fixed table. -/
def city_lookup (name : Str) : Option CityData :=
  (city_database.find? (fun c => c.1 == name)).map (·.2)

/-- `MultiCityComparisonService._generate_recommendation`
(advanced_features_service.py lines 766-775). -/
def generate_recommendation (score : ℚ) (business_type : Str) : Str :=
  if 85 ≤ score then
    "Excellent choice for ".toList ++ business_type ++
      ". High potential, act quickly.".toList
  else if 70 ≤ score then
    "Good opportunity for ".toList ++ business_type ++
      ". Balanced risk-reward.".toList
  else if 60 ≤ score then
    "Moderate potential. Consider if you have local advantage.".toList
  else
    "Challenging market. Requires strong differentiation.".toList

/-- The `for city in cities[:10]` loop of `compare_cities` (lines 644-667):
unknown cities are skipped, known ones are scored.  (The entries also echo
constant table strings, omitted here.) -/
def city_results (criteria : List (Str × PyVal)) (business_type : Str)
    (cities : List Str) : List (Str × ℚ) :=
  (cities.take 10).filterMap (fun city =>
    (city_lookup city).map (fun d =>
      (city, calculate_city_score d criteria business_type)))

/-- Insertion step of the stable descending sort on the `"score"` key of
the city results. -/
def insertPairDesc (x : Str × ℚ) : List (Str × ℚ) → List (Str × ℚ)
  | [] => [x]
  | y :: ys => if y.2 < x.2 then x :: y :: ys else y :: insertPairDesc x ys

/-- `results.sort(key=lambda x: x["score"], reverse=True)` for the city
results (stable, like Python's sort). -/
def sortPairsDesc (l : List (Str × ℚ)) : List (Str × ℚ) :=
  l.foldl (fun acc x => insertPairDesc x acc) []

/-- One computed result entry of `/advanced/compare-cities` after the
ranking loop (lines 669-672). -/
structure CityResult where
  city : Str
  score : ℚ
  recommendation : Str
  rank : ℕ
  medal : Str
deriving DecidableEq, Repr

/-- The ranking loop: `rank = i + 1` and the medal emoji for the top
three. -/
def rank_results (business_type : Str) (sorted : List (Str × ℚ)) :
    List CityResult :=
  sorted.enum.map (fun e =>
    ⟨e.2.1, e.2.2, generate_recommendation e.2.2 business_type, e.1 + 1,
     if e.1 = 0 then "🥇".toList
     else if e.1 = 1 then "🥈".toList
     else if e.1 = 2 then "🥉".toList
     else []⟩)

/-- `MultiCityComparisonService._generate_summary` (lines 777-795): guarded
against an empty result list. -/
def generate_summary (showNum : ℚ → Str) (results : List CityResult)
    (business_type : Str) : Str :=
  match results with
  | [] => "No cities to compare".toList
  | top :: _ =>
    "
        Multi-City Analysis Summary for ".toList ++ business_type ++
      ":

        Top Choice: ".toList ++ top.city ++ " (Score: ".toList ++
      showNum top.score ++ "/100)
        - Best balance of market size, income, and opportunity
        - ".toList ++ top.recommendation ++ "

        All ".toList ++ (Nat.repr results.length).toList ++
      " cities analyzed offer viable opportunities,
        but differ significantly in competition level and market maturity.

        Consider: Market entry strategy, local partnerships, and timing.
        ".toList

/-- The payload of `/advanced/compare-cities`. -/
structure CompareCitiesPayload where
  comparison_type : Str
  cities_analyzed : ℕ
  criteria : Option (List (Str × PyVal))
  results : List CityResult
  summary : Str
  success : Bool
deriving DecidableEq, Repr

/-- The `/advanced/compare-cities` handler (main.py lines 477-492) with
`MultiCityComparisonService.compare_cities` (advanced_features_service.py
lines 625-680) inlined: every step is total, for every request.  The
request's `criteria` may be `null`; the score function ignores its
`criteria` argument, so the `getD []` coercion is immaterial. -/
def compare_cities_handler (showNum : ℚ → Str) (cities : List Str)
    (criteria : Option (List (Str × PyVal))) (business_type : Str) :
    HResp CompareCitiesPayload :=
  let sorted := sortPairsDesc (city_results (criteria.getD []) business_type cities)
  let results := rank_results business_type sorted
  .ok ⟨business_type, results.length, criteria, results,
       generate_summary showNum results business_type, true⟩

/-! ## Helper lemmas -/

theorem insertScoreDesc_length (r : MockRow) (l : List MockRow) :
    (insertScoreDesc r l).length = l.length + 1 := by
  induction l with
  | nil => rfl
  | cons x xs ih =>
    unfold insertScoreDesc
    split <;> simp [ih]

theorem sortScoreDesc_length (l : List MockRow) :
    (sortScoreDesc l).length = l.length := by
  suffices h : ∀ acc : List MockRow,
      (List.foldl (fun acc r => insertScoreDesc r acc) acc l).length =
        acc.length + l.length by
    simpa [sortScoreDesc] using h []
  induction l with
  | nil => intro acc; simp
  | cons x xs ih =>
    intro acc
    simp only [List.foldl_cons, ih, insertScoreDesc_length, List.length_cons]
    omega

theorem mem_insertScoreDesc {y r : MockRow} {l : List MockRow} :
    y ∈ insertScoreDesc r l ↔ y = r ∨ y ∈ l := by
  induction l with
  | nil => simp [insertScoreDesc]
  | cons x xs ih =>
    unfold insertScoreDesc
    split
    · simp
    · simp [ih]
      tauto

theorem insertScoreDesc_sorted (r : MockRow) {l : List MockRow}
    (h : l.Pairwise (fun a b => b.score ≤ a.score)) :
    (insertScoreDesc r l).Pairwise (fun a b => b.score ≤ a.score) := by
  induction l with
  | nil => simp [insertScoreDesc]
  | cons x xs ih =>
    rw [List.pairwise_cons] at h
    obtain ⟨hx, hxs⟩ := h
    unfold insertScoreDesc
    split
    · rename_i hlt
      rw [List.pairwise_cons]
      refine ⟨?_, ?_⟩
      · intro b hb
        rcases List.mem_cons.mp hb with rfl | hb
        · exact le_of_lt hlt
        · exact le_trans (hx b hb) (le_of_lt hlt)
      · rw [List.pairwise_cons]
        exact ⟨hx, hxs⟩
    · rename_i hge
      rw [List.pairwise_cons]
      refine ⟨?_, ih hxs⟩
      intro b hb
      rcases mem_insertScoreDesc.mp hb with rfl | hb
      · exact le_of_not_lt hge
      · exact hx b hb

theorem sortScoreDesc_sorted (l : List MockRow) :
    (sortScoreDesc l).Pairwise (fun a b => b.score ≤ a.score) := by
  suffices h : ∀ acc : List MockRow,
      acc.Pairwise (fun a b => b.score ≤ a.score) →
      (List.foldl (fun acc r => insertScoreDesc r acc) acc l).Pairwise
        (fun a b => b.score ≤ a.score) by
    exact h [] (by simp)
  induction l with
  | nil => intro acc hacc; simpa using hacc
  | cons x xs ih =>
    intro acc hacc
    simp only [List.foldl_cons]
    exact ih _ (insertScoreDesc_sorted x hacc)

/-! ## Claim theorems -/

/-- Claim C4: for every interpretation, `_get_mock_data` returns a list of
exactly 10 rows, sorted by weakly descending `score`. -/
theorem get_mock_data_ten_rows_sorted (interpretation : Interpretation) :
    (get_mock_data interpretation).length = 10 ∧
    (get_mock_data interpretation).Pairwise (fun a b => b.score ≤ a.score) := by
  constructor
  · simp [get_mock_data, sortScoreDesc_length]
  · exact sortScoreDesc_sorted _

/-- Claim C5: with no credentials configured, interpreting the literal query
`"Show me areas with high potential for coffee shops"` yields an
interpretation with `enrich_with_places = true` and a filter whose value is
`"cafe"`. -/
theorem coffee_shop_query_interpretation :
    (fallback_interpretation
        "Show me areas with high potential for coffee shops".toList).enrich_with_places
      = true ∧
    ∃ f ∈ (fallback_interpretation
        "Show me areas with high potential for coffee shops".toList).filters,
      f.value = "cafe".toList := by
  decide

/-- Claim C8: the keyword fallback interpreter is deterministic — two runs
on the same query text yield structurally equal interpretations. -/
theorem fallback_interpretation_deterministic (q q' : Str) (h : q = q') :
    fallback_interpretation q = fallback_interpretation q' := by
  rw [h]

theorem fallback_interpretation_deterministic_witness :
    fallback_interpretation "coffee".toList = fallback_interpretation "coffee".toList :=
  fallback_interpretation_deterministic _ _ rfl

/-- Claim C10: `_calculate_confidence` always returns a value in `[0, 1]` —
the `0.5` base adjusted by keyword hits is clamped by the final
`max(0.0, min(1.0, confidence))`. -/
theorem calculate_confidence_in_unit_interval (text : Str) :
    0 ≤ calculate_confidence text ∧ calculate_confidence text ≤ 1 := by
  unfold calculate_confidence
  refine ⟨le_max_left 0 _, max_le (by norm_num) (min_le_left 1 _)⟩

/-- Claim C3: whenever acquiring the pool yields nothing or running the SQL
fails, `execute_query` answers with the synthetic mock result set (ten rows,
weakly descending score) and the failure is not propagated (the embedding's
result type has no error case: both `except` handlers of the source return
the mock rows). -/
theorem execute_query_failure_returns_mock {DbRow : Type} (create : Option Pool)
    (runQ : Pool → Str → Except Str (List DbRow)) (sql_query : Str)
    (interpretation : Interpretation) (s : GeoState)
    (hfail : (get_pool create s).1 = none ∨
      ∃ p e, (get_pool create s).1 = some p ∧ runQ p sql_query = .error e) :
    (execute_query create runQ sql_query interpretation s).1 =
      QueryOutcome.mock (get_mock_data interpretation) ∧
    (get_mock_data interpretation).length = 10 ∧
    (get_mock_data interpretation).Pairwise (fun a b => b.score ≤ a.score) := by
  refine ⟨?_, by simp [get_mock_data, sortScoreDesc_length], sortScoreDesc_sorted _⟩
  rcases hfail with h | ⟨p, e, hp, hq⟩
  · simp [execute_query, h]
  · simp [execute_query, hp, hq]

theorem execute_query_failure_returns_mock_witness :
    (@execute_query ℕ none (fun _ _ => .error [])
        "SELECT 1".toList (fallback_interpretation []) ⟨none⟩).1 =
      QueryOutcome.mock (get_mock_data (fallback_interpretation [])) ∧
    (get_mock_data (fallback_interpretation [])).length = 10 ∧
    (get_mock_data (fallback_interpretation [])).Pairwise
      (fun a b => b.score ≤ a.score) :=
  execute_query_failure_returns_mock none _ _ _ ⟨none⟩ (Or.inl rfl)

/-- Claim C9: once `self.pool` is non-`None`, `get_pool` returns that very
pool and none of `get_pool`, `execute_query`, `check_connection` changes the
state — the pool is created lazily at most once, reused, and never torn
down. -/
theorem pool_created_once {DbRow : Type} (create : Option Pool)
    (ping : Pool → Except Str Unit)
    (runQ : Pool → Str → Except Str (List DbRow)) (sql_query : Str)
    (interpretation : Interpretation) (s : GeoState) (p : Pool)
    (h : s.pool = some p) :
    get_pool create s = (some p, s) ∧
    (execute_query create runQ sql_query interpretation s).2 = s ∧
    (check_connection create ping s).2 = s := by
  obtain ⟨pool⟩ := s
  subst h
  refine ⟨rfl, ?_, ?_⟩
  · cases hq : runQ p sql_query <;> simp [execute_query, get_pool, hq]
  · cases hp : ping p <;> simp [check_connection, get_pool, hp]

theorem pool_created_once_witness :
    get_pool (some 3) ⟨some 7⟩ = (some 7, ⟨some 7⟩) ∧
    (@execute_query ℕ (some 3) (fun _ _ => .ok []) "SELECT 1".toList
        (fallback_interpretation []) ⟨some 7⟩).2 = ⟨some 7⟩ ∧
    (check_connection (some 3) (fun _ => .ok ()) ⟨some 7⟩).2 = ⟨some 7⟩ :=
  pool_created_once (some 3) _ _ _ _ ⟨some 7⟩ 7 rfl

/-- Claim C7: in the fallback interpreter, a query containing `"500"` whose
lower-cased form contains `"meter"` gets a buffer operation with radius
`"500"` and unit `"meters"`, and a query whose lower-cased form contains
`"coffee"` gets the business/`poi_type` category filter with value
`"cafe"`. -/
theorem fallback_keyword_scan (q : Str) :
    (strContains "500".toList q = true →
      strContains "meter".toList (lowerStr q) = true →
      SpatialOp.mk "buffer".toList ⟨"500".toList, "meters".toList⟩ ∈
        (fallback_interpretation q).spatial_operations) ∧
    (strContains "coffee".toList (lowerStr q) = true →
      ∃ f ∈ (fallback_interpretation q).filters,
        f.ftype = "business".toList ∧ f.value = "cafe".toList ∧
        f.unit = "category".toList) := by
  constructor
  · intro h5 hm
    simp only [fallback_interpretation, h5, hm, Bool.true_and, Bool.true_or, if_true]
    split <;> simp
  · intro hc
    simp only [fallback_interpretation, hc, Bool.true_or, if_true]
    split <;> simp

theorem fallback_keyword_scan_witness :
    SpatialOp.mk "buffer".toList ⟨"500".toList, "meters".toList⟩ ∈
      (fallback_interpretation "coffee within 500 meters".toList).spatial_operations ∧
    ∃ f ∈ (fallback_interpretation "coffee within 500 meters".toList).filters,
      f.ftype = "business".toList ∧ f.value = "cafe".toList ∧
      f.unit = "category".toList :=
  ⟨(fallback_keyword_scan _).1 (by decide) (by decide),
   (fallback_keyword_scan _).2 (by decide)⟩

theorem floor_le_round_half_even (q : ℚ) : ⌊q⌋ ≤ round_half_even q := by
  unfold round_half_even
  split_ifs <;> linarith

theorem round_half_even_le_floor_add_one (q : ℚ) : round_half_even q ≤ ⌊q⌋ + 1 := by
  unfold round_half_even
  split_ifs <;> linarith

theorem round_half_even_mono {x y : ℚ} (h : x ≤ y) :
    round_half_even x ≤ round_half_even y := by
  have hf : (⌊x⌋ : ℤ) ≤ ⌊y⌋ := Int.floor_le_floor h
  rcases lt_or_eq_of_le hf with hlt | heq
  · calc round_half_even x ≤ ⌊x⌋ + 1 := round_half_even_le_floor_add_one x
      _ ≤ ⌊y⌋ := by omega
      _ ≤ round_half_even y := floor_le_round_half_even y
  · have hfr : x - (⌊x⌋ : ℚ) ≤ y - (⌊y⌋ : ℚ) := by
      rw [← heq]
      linarith
    unfold round_half_even
    rw [← heq] at hfr ⊢
    split_ifs <;> first | omega | linarith

theorem round1_mono {x y : ℚ} (h : x ≤ y) : round1 x ≤ round1 y := by
  unfold round1
  have h10 : (10 : ℚ) * x ≤ 10 * y := by linarith
  have hc : ((round_half_even (10 * x) : ℤ) : ℚ) ≤ ((round_half_even (10 * y) : ℤ) : ℚ) :=
    Int.cast_le.mpr (round_half_even_mono h10)
  linarith

theorem comp_map_antitone {c c' : CompLevel} (h : compRank c ≤ compRank c') :
    comp_map c' ≤ comp_map c := by
  cases c <;> cases c' <;>
    first
      | (exact absurd h (by decide))
      | norm_num [comp_map]

theorem calculate_city_score_mono_pop (d d' : CityData)
    (crit : List (Str × PyVal)) (btype : Str)
    (hi : d.avg_income = d'.avg_income) (hc : d.competition = d'.competition)
    (hg : d.growth_rate = d'.growth_rate) (hp : d.population ≤ d'.population) :
    calculate_city_score d crit btype ≤ calculate_city_score d' crit btype := by
  unfold calculate_city_score
  apply round1_mono
  rw [hi, hc, hg]
  have hmin : min (d.population * 3) 20 ≤ min (d'.population * 3) 20 :=
    min_le_min (by linarith) le_rfl
  apply min_le_min _ le_rfl
  linarith

theorem calculate_city_score_mono_income (d d' : CityData)
    (crit : List (Str × PyVal)) (btype : Str)
    (hp : d.population = d'.population) (hc : d.competition = d'.competition)
    (hg : d.growth_rate = d'.growth_rate) (hi : d.avg_income ≤ d'.avg_income) :
    calculate_city_score d crit btype ≤ calculate_city_score d' crit btype := by
  unfold calculate_city_score
  apply round1_mono
  rw [hp, hc, hg]
  have hmin : min (d.avg_income / 200) 15 ≤ min (d'.avg_income / 200) 15 :=
    min_le_min (by linarith) le_rfl
  apply min_le_min _ le_rfl
  linarith

theorem calculate_city_score_antitone_comp (d d' : CityData)
    (crit : List (Str × PyVal)) (btype : Str)
    (hp : d.population = d'.population) (hi : d.avg_income = d'.avg_income)
    (hg : d.growth_rate = d'.growth_rate)
    (hcomp : compRank d.competition ≤ compRank d'.competition) :
    calculate_city_score d' crit btype ≤ calculate_city_score d crit btype := by
  unfold calculate_city_score
  apply round1_mono
  rw [← hp, ← hi, ← hg]
  have hmin : comp_map d'.competition ≤ comp_map d.competition :=
    comp_map_antitone hcomp
  apply min_le_min _ le_rfl
  linarith

/-- Claim C6: over the values of the fixed five-city table,
`_calculate_city_score` is monotonically non-decreasing in population and in
average income, and non-increasing in the competition level (ordered
`low < medium < medium-high < high`), holding the other inputs fixed. -/
theorem city_score_monotone :
    (∀ (crit : List (Str × PyVal)) (btype : Str) (p p' income : ℚ)
        (comp : CompLevel) (growth : ℚ),
        p ∈ table_populations → p' ∈ table_populations →
        income ∈ table_incomes → comp ∈ table_competitions →
        growth ∈ table_growths → p ≤ p' →
        calculate_city_score ⟨p, income, comp, growth⟩ crit btype ≤
          calculate_city_score ⟨p', income, comp, growth⟩ crit btype) ∧
    (∀ (crit : List (Str × PyVal)) (btype : Str) (pop income income' : ℚ)
        (comp : CompLevel) (growth : ℚ),
        pop ∈ table_populations → income ∈ table_incomes →
        income' ∈ table_incomes → comp ∈ table_competitions →
        growth ∈ table_growths → income ≤ income' →
        calculate_city_score ⟨pop, income, comp, growth⟩ crit btype ≤
          calculate_city_score ⟨pop, income', comp, growth⟩ crit btype) ∧
    (∀ (crit : List (Str × PyVal)) (btype : Str) (pop income : ℚ)
        (comp comp' : CompLevel) (growth : ℚ),
        pop ∈ table_populations → income ∈ table_incomes →
        comp ∈ table_competitions → comp' ∈ table_competitions →
        growth ∈ table_growths → compRank comp ≤ compRank comp' →
        calculate_city_score ⟨pop, income, comp', growth⟩ crit btype ≤
          calculate_city_score ⟨pop, income, comp, growth⟩ crit btype) := by
  refine ⟨?_, ?_, ?_⟩
  · intro crit btype p p' income comp growth _ _ _ _ _ hp
    exact calculate_city_score_mono_pop ⟨p, income, comp, growth⟩
      ⟨p', income, comp, growth⟩ crit btype rfl rfl rfl hp
  · intro crit btype pop income income' comp growth _ _ _ _ _ hi
    exact calculate_city_score_mono_income ⟨pop, income, comp, growth⟩
      ⟨pop, income', comp, growth⟩ crit btype rfl rfl rfl hi
  · intro crit btype pop income comp comp' growth _ _ _ _ _ hcomp
    exact calculate_city_score_antitone_comp ⟨pop, income, comp, growth⟩
      ⟨pop, income, comp', growth⟩ crit btype rfl rfl rfl hcomp

theorem city_score_monotone_witness :
    calculate_city_score ⟨123/10, 4200, .high, 18/10⟩ [] "general".toList ≤
      calculate_city_score ⟨123/10, 4200, .high, 18/10⟩ [] "general".toList ∧
    calculate_city_score ⟨14/10, 3400, .medium, 22/10⟩ [] "general".toList ≤
      calculate_city_score ⟨14/10, 3400, .medium, 22/10⟩ [] "general".toList ∧
    calculate_city_score ⟨25/10, 3300, .high, 2⟩ [] "general".toList ≤
      calculate_city_score ⟨25/10, 3300, .medium, 2⟩ [] "general".toList :=
  ⟨city_score_monotone.1 [] "general".toList (123/10) (123/10) 4200 .high (18/10)
      (by simp [table_populations, city_database])
      (by simp [table_populations, city_database])
      (by simp [table_incomes, city_database])
      (by simp [table_competitions, city_database])
      (by simp [table_growths, city_database]) le_rfl,
   city_score_monotone.2.1 [] "general".toList (14/10) 3400 3400 .medium (22/10)
      (by simp [table_populations, city_database])
      (by simp [table_incomes, city_database])
      (by simp [table_incomes, city_database])
      (by simp [table_competitions, city_database])
      (by simp [table_growths, city_database]) le_rfl,
   city_score_monotone.2.2 [] "general".toList (25/10) 3300 .medium .high 2
      (by simp [table_populations, city_database])
      (by simp [table_incomes, city_database])
      (by simp [table_competitions, city_database])
      (by simp [table_competitions, city_database])
      (by simp [table_growths, city_database]) (by decide)⟩


theorem extract_place_types_filters_ok (filters : List MFilter)
    (hf : ∀ f ∈ filters, ∀ v, f.value = some v → ∃ s, v = PyVal.pstr s) :
    ∃ ts, extract_place_types_filters filters = .ok ts := by
  induction filters with
  | nil => exact ⟨[], rfl⟩
  | cons f rest ih =>
    obtain ⟨ts, hts⟩ :=
      ih (fun g hg v hv => hf g (List.mem_cons_of_mem f hg) v hv)
    unfold extract_place_types_filters
    split
    · cases hv : f.value with
      | none => simp [hv, hts, Except.map]
      | some v =>
        obtain ⟨s, rfl⟩ := hf f (List.mem_cons_self f rest) v hv
        simp [hv, hts, Except.map]
    · exact ⟨ts, hts⟩

theorem enrich_rows_ok (oracle : ℕ → Except Str (List RawPlace))
    (rows : List MRow) :
    ∀ k : ℕ,
    (∀ r ∈ rows, ∀ c, r.center = some c → c.lat.isSome ∧ c.lng.isSome) →
    ∃ out, enrich_rows oracle k rows = .ok out ∧ out.length = rows.length ∧
      ∀ i r, rows.get? i = some r → r.center ≠ none →
        ∀ e, oracle (k + i) = .error e →
          ∃ r', out.get? i = some r' ∧ r'.nearby_places = some [] := by
  induction rows with
  | nil =>
    intro k _
    exact ⟨[], rfl, rfl, fun i r hr => by simp at hr⟩
  | cons r rest ih =>
    intro k h
    obtain ⟨out, hout, hlen, hprop⟩ :=
      ih (k + 1) (fun g hg => h g (List.mem_cons_of_mem r hg))
    cases hc : r.center with
    | none =>
      refine ⟨r :: out, ?_, by simp [hlen], ?_⟩
      · unfold enrich_rows
        rw [hc, hout]
        rfl
      · intro i r0 hr0 hcen e he
        cases i with
        | zero =>
          simp only [List.get?_cons_zero, Option.some.injEq] at hr0
          subst hr0
          exact absurd hc hcen
        | succ n =>
          simp only [List.get?_cons_succ] at hr0
          have harith : k + (n + 1) = (k + 1) + n := by omega
          rw [harith] at he
          obtain ⟨r', hr', hnp⟩ := hprop n r0 hr0 hcen e he
          exact ⟨r', by simpa using hr', hnp⟩
    | some c =>
      obtain ⟨hlat, hlng⟩ := h r (List.mem_cons_self r rest) c hc
      obtain ⟨la, hla⟩ := Option.isSome_iff_exists.mp hlat
      obtain ⟨ln, hln⟩ := Option.isSome_iff_exists.mp hlng
      refine ⟨(match oracle k with
               | .error _ => { r with nearby_places := some [] }
               | .ok places =>
                 { r with nearby_places := some ((places.take 5).map convertPlace) }) :: out,
              ?_, by simp [hlen], ?_⟩
      · simp only [enrich_rows, hc, hla, hln, hout, Except.map]
      · intro i r0 hr0 hcen e he
        cases i with
        | zero =>
          have hk : oracle k = .error e := by simpa using he
          rw [hk]
          exact ⟨_, rfl, rfl⟩
        | succ n =>
          simp only [List.get?_cons_succ] at hr0
          have harith : k + (n + 1) = (k + 1) + n := by omega
          rw [harith] at he
          obtain ⟨r', hr', hnp⟩ := hprop n r0 hr0 hcen e he
          exact ⟨r', by simpa using hr', hnp⟩

/-- Counterexample to claim C2 as stated: with the maps key configured, a
row whose `'center'` dict lacks the `'lat'` key makes `enrich_with_places`
raise `KeyError` — the accesses `result['center']['lat']`/`['lng']` happen
before the per-row `try`, so the call does not return a result list for
all inputs. -/
theorem enrich_with_places_raises_on_missing_center_keys :
    enrich_with_places true (fun _ => .ok [])
        [⟨some ⟨none, none⟩, none, []⟩] ⟨[]⟩ =
      .error "KeyError: lat".toList := by
  rfl

/-- Claim C2 (amended): for every row list whose present `'center'` dicts
carry both coordinate keys, and every interpretation whose filter values
are strings (or absent), `enrich_with_places` returns a result list of the
same length, and — when the service is enabled — every row whose per-row
nearby-places lookup fails gets `nearby_places = []`. -/
theorem enrich_with_places_total_on_wellformed
    (enabled : Bool) (oracle : ℕ → Except Str (List RawPlace))
    (results : List MRow) (interpretation : MInterp)
    (hrows : ∀ r ∈ results, ∀ c, r.center = some c →
      c.lat.isSome ∧ c.lng.isSome)
    (hfilters : ∀ f ∈ interpretation.filters, ∀ v, f.value = some v →
      ∃ s, v = PyVal.pstr s) :
    ∃ out, enrich_with_places enabled oracle results interpretation = .ok out ∧
      out.length = results.length ∧
      (enabled = true →
        ∀ i r, results.get? i = some r → r.center ≠ none →
          ∀ e, oracle i = .error e →
            ∃ r', out.get? i = some r' ∧ r'.nearby_places = some []) := by
  cases enabled with
  | false => exact ⟨results, rfl, rfl, fun h => by cases h⟩
  | true =>
    obtain ⟨ts, hts⟩ := extract_place_types_filters_ok _ hfilters
    obtain ⟨out, hout, hlen, hprop⟩ := enrich_rows_ok oracle results 0 hrows
    refine ⟨out, ?_, hlen, fun _ i r hr hcen e he => ?_⟩
    · simp only [enrich_with_places, extract_place_types, hts, Except.map,
        Bool.not_true, Bool.false_eq_true, if_false]
      exact hout
    · exact hprop i r hr hcen e (by simpa using he)

theorem enrich_with_places_total_on_wellformed_witness :
    ∃ out, enrich_with_places true alwaysFailPlaces
        [⟨some ⟨some 1, some 2⟩, none, []⟩] ⟨[]⟩ = .ok out ∧
      out.length = 1 ∧
      (true = true →
        ∀ i r, [(⟨some ⟨some 1, some 2⟩, none, []⟩ : MRow)].get? i = some r →
          r.center ≠ none →
          ∀ e, alwaysFailPlaces i = .error e →
            ∃ r', out.get? i = some r' ∧ r'.nearby_places = some []) :=
  enrich_with_places_total_on_wellformed true alwaysFailPlaces _ _
    (fun r hr c hc => by
      have hr' : r = (⟨some ⟨some 1, some 2⟩, none, []⟩ : MRow) :=
        List.eq_of_mem_singleton hr
      subst hr'
      cases hc
      exact ⟨rfl, rfl⟩)
    (fun f hf v _ => absurd hf (List.not_mem_nil f))


theorem sumKey_isSome (k : Str) (locations : List LocDict)
    (h : ∀ l ∈ locations, (dictLookup k l).isSome) :
    (sumKey k locations).isSome := by
  induction locations with
  | nil => rfl
  | cons l rest ih =>
    have hl := h l (List.mem_cons_self l rest)
    have hr := ih (fun g hg => h g (List.mem_cons_of_mem l hg))
    obtain ⟨v, hv⟩ := Option.isSome_iff_exists.mp hl
    obtain ⟨s, hs⟩ := Option.isSome_iff_exists.mp hr
    simp only [sumKey, List.foldr_cons] at hs ⊢
    rw [hv, hs]
    rfl

/-- Counterexample to claim C1 as stated: in the unconfigured state, the
`/routing/meeting-point` endpoint answers HTTP 500 (not success) for the
valid request body `locations=[{"a": 1.0}, {"b": 2.0}]` — the mock branch
indexes `loc['lat']`, which raises `KeyError`, and the handler converts it
to `HTTPException(500)`. -/
theorem meeting_point_handler_500_on_missing_keys :
    meeting_point_handler_unconfigured
        [[("a".toList, 1)], [("b".toList, 2)]] "transit".toList =
      .serverError "KeyError: lat".toList := by
  rfl

theorem compare_locations_loop_ok (showNum : ℚ → Str) (locs : List LocDict)
    (h : ∀ l ∈ locs, (dictLookup "lat".toList l).isSome ∧
      (dictLookup "lng".toList l).isSome) :
    ∃ out, compare_locations_loop showNum locs = .ok out := by
  induction locs with
  | nil => exact ⟨[], rfl⟩
  | cons l rest ih =>
    obtain ⟨hla, hlng⟩ := h l (List.mem_cons_self l rest)
    obtain ⟨la, ha⟩ := Option.isSome_iff_exists.mp hla
    obtain ⟨ln, hb⟩ := Option.isSome_iff_exists.mp hlng
    obtain ⟨out, hout⟩ := ih (fun g hg => h g (List.mem_cons_of_mem l hg))
    simp only [compare_locations_loop, ha, hb, hout, Except.map]
    exact ⟨_, rfl⟩

theorem mock_isochrone_loop_ok (cosF sinF : ℕ → ℚ) (center : LocDict)
    (maxI : ℤ) (l : List ℤ)
    (hla : (dictLookup "lat".toList center).isSome)
    (hlng : (dictLookup "lng".toList center).isSome)
    (hmax : maxI ≠ 0) :
    ∃ out, mock_isochrone_loop cosF sinF center maxI l = .ok out := by
  obtain ⟨la, ha⟩ := Option.isSome_iff_exists.mp hla
  obtain ⟨ln, hb⟩ := Option.isSome_iff_exists.mp hlng
  induction l with
  | nil => exact ⟨[], rfl⟩
  | cons interval rest ih =>
    obtain ⟨out, hout⟩ := ih
    have hcolor : get_isochrone_color interval maxI =
        .ok (if ((interval : ℚ) / (maxI : ℚ)) ≤ 33/100 then "#10b981".toList
             else if ((interval : ℚ) / (maxI : ℚ)) ≤ 66/100 then "#f59e0b".toList
             else "#ef4444".toList) := by
      unfold get_isochrone_color
      rw [if_neg hmax]
    simp only [mock_isochrone_loop, ha, hb, hcolor, hout, Except.map]
    exact ⟨_, rfl⟩

theorem upsert_ne_nil {α : Type} (k : Str) (v : α)
    (l : List (Str × α)) : upsert k v l ≠ [] := by
  cases l with
  | nil => simp [upsert]
  | cons x xs =>
    unfold upsert
    split <;> simp

theorem accessibility_scores_go_ok (location : LocDict) (maxd : ℤ)
    (hmd : maxd ≠ 0)
    (hla : (dictLookup "lat".toList location).isSome)
    (hlng : (dictLookup "lng".toList location).isSome) :
    ∀ (pois : List Str) (i : ℕ) (acc : List (Str × AccessEntry)),
    ∃ out, accessibility_scores_go location maxd i acc pois = .ok out ∧
      (out.isEmpty → acc.isEmpty ∧ pois.isEmpty) := by
  obtain ⟨la, ha⟩ := Option.isSome_iff_exists.mp hla
  obtain ⟨ln, hb⟩ := Option.isSome_iff_exists.mp hlng
  intro pois
  induction pois with
  | nil => exact fun i acc => ⟨acc, rfl, fun he => ⟨he, rfl⟩⟩
  | cons p rest ih =>
    intro i acc
    obtain ⟨out, hout, hne⟩ := ih (i + 1) (upsert p _ acc)
    refine ⟨out, ?_, ?_⟩
    · unfold accessibility_scores_go
      rw [if_neg hmd, ha, hb]
      exact hout
    · intro he
      exact absurd (List.isEmpty_iff.mp (hne he).1) (upsert_ne_nil _ _ _)

theorem getLast?_cons_isSome (x : ℤ) (t : List ℤ) :
    ((x :: t).getLast?).isSome := by
  induction t generalizing x with
  | nil => rfl
  | cons y t ih =>
    rw [List.getLast?_cons_cons]
    exact ih y

/-- `/analyze/compare-locations` answers HTTP 500 when one of the first
five location dicts lacks a coordinate key: `loc['lat']` raises `KeyError`
at the call site of the per-location analysis (vision_service.py line
131). -/
theorem compare_locations_500_on_missing_keys :
    compare_locations_handler_unconfigured (fun _ => [])
        [[("x".toList, 1)]] "comparative".toList =
      .serverError "KeyError: lat".toList := by rfl

/-- `/routing/isochrone` answers HTTP 500 when the center dict lacks a
coordinate key and the interval list is nonempty: `center['lat']` raises
`KeyError` in the mock polygon loop (routing_service.py line 419). -/
theorem isochrone_500_on_missing_center_keys :
    isochrone_handler_unconfigured (fun _ => 0) (fun _ => 0) []
        10 "walking".toList (some [5]) =
      .serverError "KeyError: lat".toList := by rfl

/-- `/routing/isochrone` answers HTTP 500 when the maximum effective
interval is 0 (e.g. `duration_minutes = 0` with the default intervals):
`interval / max_interval` raises `ZeroDivisionError` in
`_get_isochrone_color` (routing_service.py line 380). -/
theorem isochrone_500_on_zero_duration :
    isochrone_handler_unconfigured (fun _ => 0) (fun _ => 0)
        [("lat".toList, 0), ("lng".toList, 0)] 0 "walking".toList none =
      .serverError "ZeroDivisionError: division by zero".toList := by rfl

/-- `/routing/accessibility` answers HTTP 500 on `poi_types = []`, even
with well-formed coordinates: the score loop is skipped and
`sum(...) / len(scores)` divides by zero (routing_service.py line 468). -/
theorem accessibility_500_on_empty_poi_types :
    accessibility_handler_unconfigured
        [("lat".toList, 0), ("lng".toList, 0)] (some []) 15 =
      .serverError "ZeroDivisionError: division by zero".toList := by rfl

/-- `/routing/accessibility` answers HTTP 500 when the location dict lacks
a coordinate key: `location['lat']` raises `KeyError` in the mock score
entry (routing_service.py line 462). -/
theorem accessibility_500_on_missing_location_keys :
    accessibility_handler_unconfigured [] none 15 =
      .serverError "KeyError: lat".toList := by rfl

/-- `/routing/accessibility` answers HTTP 500 when
`max_duration_minutes = 0`: the score entry divides by it
(routing_service.py line 460). -/
theorem accessibility_500_on_zero_max_duration :
    accessibility_handler_unconfigured
        [("lat".toList, 0), ("lng".toList, 0)] none 0 =
      .serverError "ZeroDivisionError: division by zero".toList := by rfl

/-- `/advanced/time-travel` answers HTTP 500 when fewer than four years
are supplied (here `years = []`): the mock indexes `years[-1]`, `years[0]`
and `years[1] … years[3]` unguarded (advanced_features_service.py lines
342, 357-361). -/
theorem time_travel_500_on_empty_years :
    time_travel_handler_unconfigured 0 0 (some []) =
      .serverError "IndexError: list index out of range".toList := by rfl

/-- `/advanced/what-if` answers HTTP 500 for the population-increase
scenario when `growth_percentage` is a string: `int(growth_pct / 10)`
raises `TypeError` (advanced_features_service.py line 518). -/
theorem what_if_500_on_string_growth :
    what_if_handler (fun _ => []) 0 0 "population_increase".toList
        (some [("growth_percentage".toList, .pstr "high".toList)]) =
      .serverError "TypeError: unsupported operand".toList := by rfl

/-- `/advanced/what-if` answers HTTP 500 for a parameter-reading scenario
when the request supplies `parameters: null`: `params.get(...)` raises
`AttributeError` on `None` (advanced_features_service.py line 565). -/
theorem what_if_500_on_null_parameters :
    what_if_handler (fun _ => []) 0 0 "new_park".toList none =
      .serverError "AttributeError: get".toList := by rfl

/-- Claim C1 (amended): in every unconfigured-credential state, every
endpoint handler returns an HTTP-success response carrying its declared
payload, except on the degenerate inputs where a mock path performs
unguarded dict indexing, empty-list aggregation, or arithmetic on an
untyped parameter (each such input is witnessed by one of the `…_500_…`
theorems above).  Specifically: the `/query` handler returns a success
`QueryResponse` (`error = None`) for every request and every database
behaviour; `/`, `/health`, `/sample-queries`, `/enrich-data`,
`/advanced/features`, `/advanced/photo-analysis`,
`/advanced/compare-cities`, `/analyze/satellite`, `/analyze/streetview`,
`/analyze/sentiment` and `/routing/optimize` return HTTP success for every
request; `/analyze/compare-locations` returns success whenever the first
five location dicts carry `lat`/`lng`; `/routing/isochrone` whenever the
effective interval list is empty, or the center carries `lat`/`lng` and
the maximum interval is nonzero; `/routing/accessibility` whenever the
effective poi-type list is nonempty, the location carries `lat`/`lng` and
`max_duration_minutes` is nonzero; `/routing/meeting-point` whenever there
are fewer than two locations or all carry `lat`/`lng`;
`/advanced/time-travel` whenever at least four years are supplied; and
`/advanced/what-if` always for the three parameter-free scenario paths,
and for the parameter-reading scenarios whenever `parameters` is a dict
whose read entry is absent or a number (any string or number for the mall
size, which is only used as a lookup key). -/
theorem endpoints_success_unconfigured :
    (∀ (D : Type) (create : Option Pool) (runQ : Pool → Str → Except Str (List D))
        (s : GeoState) (request : QueryRequest),
        (process_query_unconfigured create runQ s request).1.success = true ∧
        (process_query_unconfigured create runQ s request).1.error = none) ∧
    root_handler.isSuccess = true ∧
    (∀ create ping llmE mapsE visionE routingE s,
        (health_handler create ping llmE mapsE visionE routingE s).1.isSuccess
          = true) ∧
    sample_queries_handler.isSuccess = true ∧
    (∀ enabled, (enrich_data_handler enabled).isSuccess = true) ∧
    (∀ photoE timeTravelE,
        (advanced_features_info_handler photoE timeTravelE).isSuccess = true) ∧
    (∀ showNum lat lng zoom analysis_type,
        (analyze_satellite_handler_unconfigured showNum lat lng zoom
          analysis_type).isSuccess = true) ∧
    (∀ showNum lat lng heading focus,
        (analyze_street_view_handler_unconfigured showNum lat lng heading
          focus).isSuccess = true) ∧
    (∀ reviews aspect,
        (sentiment_handler_unconfigured reviews aspect).isSuccess = true) ∧
    (∀ origin destination waypoints mode,
        (optimize_route_handler_unconfigured origin destination waypoints
          mode).isSuccess = true) ∧
    (∀ image_data analysis_type,
        (photo_analysis_handler_unconfigured image_data
          analysis_type).isSuccess = true) ∧
    (∀ showNum cities criteria business_type,
        (compare_cities_handler showNum cities criteria
          business_type).isSuccess = true) ∧
    (∀ showNum locations analysis_type,
        (∀ l ∈ locations.take 5, (dictLookup "lat".toList l).isSome ∧
          (dictLookup "lng".toList l).isSome) →
        (compare_locations_handler_unconfigured showNum locations
          analysis_type).isSuccess = true) ∧
    (∀ cosF sinF center duration_minutes mode intervals,
        (effective_intervals duration_minutes intervals = [] ∨
          ((dictLookup "lat".toList center).isSome ∧
           (dictLookup "lng".toList center).isSome ∧
           (effective_intervals duration_minutes intervals).max?.getD 0 ≠ 0)) →
        (isochrone_handler_unconfigured cosF sinF center duration_minutes
          mode intervals).isSuccess = true) ∧
    (∀ location poi_types max_duration,
        effective_poi_types poi_types ≠ [] →
        (dictLookup "lat".toList location).isSome →
        (dictLookup "lng".toList location).isSome →
        max_duration ≠ 0 →
        (accessibility_handler_unconfigured location poi_types
          max_duration).isSuccess = true) ∧
    (∀ locations mode,
        (locations.length < 2 ∨
          ∀ l ∈ locations, (dictLookup "lat".toList l).isSome ∧
            (dictLookup "lng".toList l).isSome) →
        (meeting_point_handler_unconfigured locations mode).isSuccess = true) ∧
    (∀ lat lng years,
        4 ≤ (effective_years years).length →
        (time_travel_handler_unconfigured lat lng years).isSuccess = true) ∧
    (∀ showNum lat lng parameters,
        (what_if_handler showNum lat lng "new_metro_station".toList
          parameters).isSuccess = true) ∧
    (∀ showNum lat lng parameters,
        (what_if_handler showNum lat lng "commercial_zone".toList
          parameters).isSuccess = true) ∧
    (∀ showNum lat lng scenario_type parameters,
        (scenario_type == "new_metro_station".toList) = false →
        (scenario_type == "new_shopping_mall".toList) = false →
        (scenario_type == "population_increase".toList) = false →
        (scenario_type == "new_park".toList) = false →
        (scenario_type == "commercial_zone".toList) = false →
        (what_if_handler showNum lat lng scenario_type
          parameters).isSuccess = true) ∧
    (∀ showNum lat lng params,
        (what_if_handler showNum lat lng "new_shopping_mall".toList
          (some params)).isSuccess = true) ∧
    (∀ showNum lat lng params g,
        (dictGetPV "growth_percentage".toList params).getD (.pnum 30) =
          .pnum g →
        (what_if_handler showNum lat lng "population_increase".toList
          (some params)).isSuccess = true) ∧
    (∀ showNum lat lng params s,
        (dictGetPV "size_hectares".toList params).getD (.pnum 5) = .pnum s →
        (what_if_handler showNum lat lng "new_park".toList
          (some params)).isSuccess = true) := by
  refine ⟨?_, rfl, ?_, rfl, ?_, ?_, ?_, ?_, ?_, ?_, ?_, ?_, ?_, ?_, ?_, ?_,
    ?_, ?_, ?_, ?_, ?_, ?_, ?_⟩
  · intro D create runQ s request
    exact ⟨rfl, rfl⟩
  · intro create ping llmE mapsE visionE routingE s
    rfl
  · intro enabled
    rfl
  · intro photoE timeTravelE
    rfl
  · intro showNum lat lng zoom analysis_type
    rfl
  · intro showNum lat lng heading focus
    rfl
  · intro reviews aspect
    rfl
  · intro origin destination waypoints mode
    rfl
  · intro image_data analysis_type
    rfl
  · intro showNum cities criteria business_type
    rfl
  · intro showNum locations analysis_type h
    obtain ⟨out, hout⟩ := compare_locations_loop_ok showNum _ h
    unfold compare_locations_handler_unconfigured
    rw [hout]
    rfl
  · intro cosF sinF center duration_minutes mode intervals h
    unfold isochrone_handler_unconfigured calculate_isochrone_unconfigured
      mock_isochrone
    rcases h with hI | ⟨hla, hlng, hmax⟩
    · rw [hI]
      rfl
    · obtain ⟨out, hout⟩ := mock_isochrone_loop_ok cosF sinF center _
        (effective_intervals duration_minutes intervals) hla hlng hmax
      rw [hout]
      rfl
  · intro location poi_types max_duration hp hla hlng hmd
    obtain ⟨out, hout, hne⟩ := accessibility_scores_go_ok location
      max_duration hmd hla hlng (effective_poi_types poi_types) 0 []
    have hne' : out.isEmpty = false := by
      cases he : out.isEmpty
      · rfl
      · exact absurd (List.isEmpty_iff.mp (hne he).2) hp
    have hmock : ∃ p, mock_accessibility_analysis location
        (effective_poi_types poi_types) max_duration = .ok p := by
      unfold mock_accessibility_analysis
      rw [hout]
      dsimp only
      rw [hne']
      simp only [Bool.false_eq_true, if_false]
      exact ⟨_, rfl⟩
    obtain ⟨p, hpm⟩ := hmock
    unfold accessibility_handler_unconfigured
      analyze_accessibility_unconfigured
    rw [hpm]
    rfl
  · intro locations mode h
    rcases h with hlt | hkeys
    · unfold meeting_point_handler_unconfigured
        find_optimal_meeting_point_unconfigured
      rw [if_pos hlt]
      rfl
    · have hfind : ∃ p, find_optimal_meeting_point_unconfigured locations
          mode = .ok p := by
        unfold find_optimal_meeting_point_unconfigured
        split
        · exact ⟨_, rfl⟩
        · obtain ⟨slat, hlat⟩ := Option.isSome_iff_exists.mp
            (sumKey_isSome "lat".toList locations
              (fun l hl => (hkeys l hl).1))
          obtain ⟨slng, hlng⟩ := Option.isSome_iff_exists.mp
            (sumKey_isSome "lng".toList locations
              (fun l hl => (hkeys l hl).2))
          unfold mock_optimal_meeting_point
          rw [hlat, hlng]
          exact ⟨_, rfl⟩
      obtain ⟨p, hp⟩ := hfind
      unfold meeting_point_handler_unconfigured
      rw [hp]
      rfl
  · intro lat lng years h
    obtain ⟨a, b, c, d, t, hys⟩ :
        ∃ a b c d t, effective_years years = a :: b :: c :: d :: t := by
      rcases hys : effective_years years with
        _ | ⟨a, _ | ⟨b, _ | ⟨c, _ | ⟨d, t⟩⟩⟩⟩ <;>
        first
          | (exact ⟨_, _, _, _, _, rfl⟩)
          | (rw [hys] at h; simp at h)
    obtain ⟨yl, hyl⟩ := Option.isSome_iff_exists.mp
      (getLast?_cons_isSome a (b :: c :: d :: t))
    unfold time_travel_handler_unconfigured
      get_historical_comparison_unconfigured mock_historical_data
    rw [hys, hyl]
    rfl
  · intro showNum lat lng parameters
    rfl
  · intro showNum lat lng parameters
    rfl
  · intro showNum lat lng scenario_type parameters h1 h2 h3 h4 h5
    simp only [what_if_handler, simulate_scenario, h1, h2, h3, h4, h5,
      Bool.false_eq_true, if_false]
    rfl
  · intro showNum lat lng params
    rfl
  · intro showNum lat lng params g h
    simp only [what_if_handler, simulate_scenario, h]
    rfl
  · intro showNum lat lng params s h
    simp only [what_if_handler, simulate_scenario, h]
    rfl

theorem endpoints_success_unconfigured_witness :
    ((@process_query_unconfigured ℕ none (fun _ _ => .error []) ⟨none⟩
        ⟨"hi".toList, none⟩).1.success = true) ∧
    root_handler.isSuccess = true ∧
    (health_handler none (fun _ => .ok ()) false false false false
      ⟨none⟩).1.isSuccess = true ∧
    sample_queries_handler.isSuccess = true ∧
    (enrich_data_handler false).isSuccess = true ∧
    (advanced_features_info_handler false false).isSuccess = true ∧
    (analyze_satellite_handler_unconfigured (fun _ => []) 0 0 18
      "commercial_potential".toList).isSuccess = true ∧
    (analyze_street_view_handler_unconfigured (fun _ => []) 0 0 0
      "storefront_quality".toList).isSuccess = true ∧
    (sentiment_handler_unconfigured [] "overall".toList).isSuccess = true ∧
    (optimize_route_handler_unconfigured [] [] []
      "driving".toList).isSuccess = true ∧
    (photo_analysis_handler_unconfigured "img".toList
      "location".toList).isSuccess = true ∧
    (compare_cities_handler (fun _ => []) ["Porto Alegre".toList] none
      "general".toList).isSuccess = true ∧
    (compare_locations_handler_unconfigured (fun _ => [])
      [[("lat".toList, 1), ("lng".toList, 2)]]
      "comparative".toList).isSuccess = true ∧
    (isochrone_handler_unconfigured (fun _ => 0) (fun _ => 0)
      [("lat".toList, 0), ("lng".toList, 0)] 9 "walking".toList
      none).isSuccess = true ∧
    (accessibility_handler_unconfigured
      [("lat".toList, 0), ("lng".toList, 0)] none 15).isSuccess = true ∧
    (meeting_point_handler_unconfigured
      [[("lat".toList, 1), ("lng".toList, 2)],
       [("lat".toList, 3), ("lng".toList, 4)]]
      "transit".toList).isSuccess = true ∧
    (time_travel_handler_unconfigured 0 0 none).isSuccess = true ∧
    (what_if_handler (fun _ => []) 0 0 "new_metro_station".toList
      none).isSuccess = true ∧
    (what_if_handler (fun _ => []) 0 0 "commercial_zone".toList
      none).isSuccess = true ∧
    (what_if_handler (fun _ => []) 0 0 "other".toList
      none).isSuccess = true ∧
    (what_if_handler (fun _ => []) 0 0 "new_shopping_mall".toList
      (some [])).isSuccess = true ∧
    (what_if_handler (fun _ => []) 0 0 "population_increase".toList
      (some [("growth_percentage".toList, .pnum 25)])).isSuccess = true ∧
    (what_if_handler (fun _ => []) 0 0 "new_park".toList
      (some [])).isSuccess = true := by
  obtain ⟨t1, t2, t3, t4, t5, t6, t7, t8, t9, t10, t11, t12, t13, t14, t15,
    t16, t17, t18, t19, t20, t21, t22, t23⟩ := endpoints_success_unconfigured
  exact ⟨(t1 ℕ none (fun _ _ => .error []) ⟨none⟩ ⟨"hi".toList, none⟩).1,
    t2, t3 none (fun _ => .ok ()) false false false false ⟨none⟩, t4,
    t5 false, t6 false false,
    t7 (fun _ => []) 0 0 18 "commercial_potential".toList,
    t8 (fun _ => []) 0 0 0 "storefront_quality".toList,
    t9 [] "overall".toList, t10 [] [] [] "driving".toList,
    t11 "img".toList "location".toList,
    t12 (fun _ => []) ["Porto Alegre".toList] none "general".toList,
    t13 (fun _ => []) [[("lat".toList, 1), ("lng".toList, 2)]]
      "comparative".toList (by decide),
    t14 (fun _ => 0) (fun _ => 0) [("lat".toList, 0), ("lng".toList, 0)] 9
      "walking".toList none (Or.inr ⟨rfl, rfl, by decide⟩),
    t15 [("lat".toList, 0), ("lng".toList, 0)] none 15 (by decide) rfl rfl
      (by decide),
    t16 [[("lat".toList, 1), ("lng".toList, 2)],
         [("lat".toList, 3), ("lng".toList, 4)]] "transit".toList
      (Or.inr (by decide)),
    t17 0 0 none (by decide),
    t18 (fun _ => []) 0 0 none, t19 (fun _ => []) 0 0 none,
    t20 (fun _ => []) 0 0 "other".toList none rfl rfl rfl rfl rfl,
    t21 (fun _ => []) 0 0 [],
    t22 (fun _ => []) 0 0 [("growth_percentage".toList, .pnum 25)] 25 rfl,
    t23 (fun _ => []) 0 0 [] 5 rfl⟩

end GeoMindIA
